import Mathlib

/-!
Shallow embedding of `scrapezillow/scraper.py` (the single source file of the
repository) in Lean 4, together with theorems settling the frozen claims.

Modelling conventions:

* The external HTML parser (BeautifulSoup) is abstracted: a `Soup` value holds
  the outcome of every query the scraper performs on the parsed document
  (region texts, fact list items, attribute maps, the embedded marker comment,
  the located ajax descriptors).  The HTTP layer (`requests`) is an `Env`
  mapping a URL to a response (status, final post-redirect URL, content).
* Python exceptions become an `Err` inductive; fallible code runs in either
  `Except Err` (pure extractors) or `M`, which is `Except Err` extended with a
  log of every URL fetched, so that "no history fetch is issued" is statable.
* Python `re` patterns whose exact behaviour no claim depends on (the property
  summary and sale-info patterns) are an abstract `ReEngine` parameter, like
  the other external libraries.  The fact-list patterns `Built in (\d+)` and
  `(\d+) days`, the substitution `re.sub("( #|# )", "", s)`, and the plain
  string operations are implemented concretely, translated from the source.
* `Decimal` arithmetic is modelled with `Rat`: for the numerals the scraper
  handles (optional sign, digits, optional fraction) Python `Decimal` division
  by `Decimal(1e6) = 10^6` is exact at the default 28-digit context, so the
  rational value is the faithful denotation.
-/

namespace Scrapezillow

/-- Python exceptions raised by the scraper, by class. -/
inductive Err where
  | nullResult
  | valueErr (msg : String)
  | indexErr
  | attrErr
  | keyErr
  | fetchErr (msg : String)
  deriving DecidableEq, Repr

/-- Python truthiness of an optional string (`None` and `""` are falsy). -/
def pyTruthyOptStr : Option String → Bool
  | none => false
  | some s => s ≠ ""

/-- `listStartsWith pat l` : `pat` is an initial segment of `l`. -/
def listStartsWith : List Char → List Char → Bool
  | [], _ => true
  | _ :: _, [] => false
  | a :: as, b :: bs => a = b && listStartsWith as bs

/-- Python `sub in s` on character lists: `sub` occurs as a contiguous run. -/
def listHasSub (sub : List Char) : List Char → Bool
  | [] => sub.isEmpty
  | c :: rest => listStartsWith sub (c :: rest) || listHasSub sub rest

/-- Python `s.index(sub)` : index of the first occurrence, `none` if absent. -/
def findSubIdx (sub : List Char) : List Char → Option Nat
  | [] => if sub.isEmpty then some 0 else none
  | c :: rest =>
    if listStartsWith sub (c :: rest) then some 0
    else (findSubIdx sub rest).map (· + 1)

/-- Modelled from the spec: `constants.ZILLOW_URL`, the base site URL
(`constants.py` is not under `src/`; the spec fixes the canonical template
`http://zillow.com/homes/<zpid>_zpid/(index)/`). -/
def ZILLOW_URL : String := "http://www.zillow.com/"

/-- Modelled from the spec: `constants.ZILLOW_HOMES_URL`, the landing address
whose appearance as the final post-redirect URL signals "listing not found". -/
def ZILLOW_HOMES_URL : String := "http://www.zillow.com/homes/"

/-- `urlparse.urljoin` restricted to the use in the source: resolves a
relative path against a base URL by dropping everything after the base's last
slash.  Since `ZILLOW_URL` ends in a slash this is concatenation. -/
def urljoin (base rel : String) : String :=
  String.mk ((base.toList.reverse.dropWhile (· ≠ '/')).reverse) ++ rel

/-- `validate_scraper_input(url, zpid)` from the source: rejects both-given,
neither-given, and a url without the substring `homes`; otherwise returns the
url, or the canonical address built from the zpid. -/
def validate_scraper_input (url zpid : Option String) : Except Err String :=
  if pyTruthyOptStr url && pyTruthyOptStr zpid then
    .error (Err.valueErr "You cannot specify both a url and a zpid. Choode one or the other")
  else if !pyTruthyOptStr url && !pyTruthyOptStr zpid then
    .error (Err.valueErr "You must specify either a zpid or a url of the home to scrape")
  else if pyTruthyOptStr url && !listHasSub "homes".toList (url.getD "").toList then
    .error (Err.valueErr "This program only supports gathering data for homes")
  else
    .ok (if pyTruthyOptStr url then url.getD ""
         else urljoin ZILLOW_URL ("homes/" ++ zpid.getD "" ++ "_zpid/(index)/"))

/-- A coordinate value in the assembled record: either a `Decimal` (modelled
as an exact rational) from the primary comment path, or the raw attribute
string from the secondary path. -/
inductive Coord where
  | dec (q : Rat)
  | str (s : String)
  deriving DecidableEq, Repr

/-- The `location_data` record `{latitude, longitude, address}`. -/
structure Location where
  latitude : Option Coord
  longitude : Option Coord
  address : Option String
  deriving DecidableEq, Repr

/-- A value stored in the result dictionary.  Python is dynamically typed;
the scraper stores strings, lists of strings, a derived timestamp, the
location record, and the two history tables. -/
inductive Val where
  | s (v : String)
  | sList (v : List String)
  | time (v : Int)
  | loc (v : Location)
  | priceRows (v : List (String × String × Option String))
  | taxRows (v : List (String × String × String))
  deriving DecidableEq, Repr

/-- A Python dict as an insertion-ordered association list; the stored value
is `Option Val` so that a present key may hold `None`. -/
abbrev Dict := List (String × Option Val)

/-- `d[k]` as an optional read: `none` means the key is absent. -/
def dget : Dict → String → Option (Option Val)
  | [], _ => none
  | p :: rest, k => if p.1 = k then some p.2 else dget rest k

/-- `d[k] = v` : replace in place if present, else append (dict semantics;
a dict built by assignment holds each key once, so replacing the first
occurrence is replacing the occurrence). -/
def dset : Dict → String → Option Val → Dict
  | [], k, v => [(k, v)]
  | p :: rest, k, v => if p.1 = k then (k, v) :: rest else p :: dset rest k v

/-- `d.update(**other)` : assign every entry of `other` into `d` in order. -/
def dupdate (d other : Dict) : Dict :=
  other.foldl (fun acc p => dset acc p.1 p.2) d

/-- Maximal leading run of decimal digits. -/
def takeDigits : List Char → List Char
  | [] => []
  | c :: rest => if c.isDigit then c :: takeDigits rest else []

/-- `re.findall(r"Built in (\d+)", s)[0]` : the capture of the leftmost match
of the literal `Built in ` followed by one or more digits (`none` when the
pattern never matches, where the source raises `IndexError`). -/
def findBuiltInAux : List Char → Option String
  | [] => none
  | c :: rest =>
    if listStartsWith "Built in ".toList (c :: rest) then
      match takeDigits ((c :: rest).drop 9) with
      | [] => findBuiltInAux rest
      | ds => some (String.mk ds)
    else findBuiltInAux rest

/-- `re.findall(r"(\d+) days", s)[0]` : the capture of the leftmost match of
a digit run followed by ` days`.  The run is greedy and, since a digit cannot
start ` days`, only the maximal run at a position can match. -/
def findDaysAux : List Char → Option String
  | [] => none
  | c :: rest =>
    if c.isDigit then
      let ds := takeDigits (c :: rest)
      if listStartsWith " days".toList ((c :: rest).drop ds.length) then
        some (String.mk ds)
      else findDaysAux rest
    else findDaysAux rest

/-- `re.sub("( #|# )", "", s)` : delete every leftmost non-overlapping
occurrence of a space-hash or hash-space pair, trying ` #` first. -/
def subHash : List Char → List Char
  | [] => []
  | [c] => [c]
  | c1 :: c2 :: rest =>
    if c1 = ' ' ∧ c2 = '#' then subHash rest
    else if c1 = '#' ∧ c2 = ' ' then subHash rest
    else c1 :: subHash (c2 :: rest)

/-- Python `s.split(sep)` for a one-character separator: split on every
occurrence, keeping empty segments; the result is never empty. -/
def pySplitChar (sep : Char) : List Char → List (List Char)
  | [] => [[]]
  | c :: rest =>
    if c = sep then [] :: pySplitChar sep rest
    else
      match pySplitChar sep rest with
      | [] => [[c]]
      | g :: gs => (c :: g) :: gs

/-- Python `s.strip()` : drop leading and trailing whitespace. -/
def pyStripWs (l : List Char) : List Char :=
  ((l.dropWhile Char.isWhitespace).reverse.dropWhile Char.isWhitespace).reverse

/-- Python `s.lower()` character-wise. -/
def pyToLower (l : List Char) : List Char := l.map Char.toLower

/-- Digit list to `Nat` (most significant first). -/
def natOfDigits (l : List Char) : Nat :=
  l.foldl (fun a c => 10 * a + (c.toNat - 48)) 0

/-- Python `int(s)` : optional surrounding whitespace, optional sign, one or
more digits; anything else raises `ValueError` (`none`). -/
def pyToInt (l : List Char) : Option Int :=
  let core : List Char → Option Int := fun ds =>
    if !ds.isEmpty && ds.all Char.isDigit then some (natOfDigits ds : Int)
    else none
  match pyStripWs l with
  | '-' :: ds => (core ds).map (fun n => -n)
  | '+' :: ds => core ds
  | ds => core ds

/-- `s.strip().replace(" ", "_").lower()` : the key normalization shared by
the fact parser and the sale-info extractor. -/
def pyNormalizeKey (s : String) : String :=
  String.mk (pyToLower ((pyStripWs s.toList).map
    (fun c => if c = ' ' then '_' else c)))

/-- The six classification rules of `_parse_facts`, in source order. -/
inductive FactRule where
  | homeType
  | builtIn
  | daysOnZillow
  | extras
  | posted
  | generic
  deriving DecidableEq, Repr

/-- Position of a rule in the `if/elif` chain of `_parse_facts`. -/
def ruleIdx : FactRule → Nat
  | .homeType => 0
  | .builtIn => 1
  | .daysOnZillow => 2
  | .extras => 3
  | .posted => 4
  | .generic => 5

/-- The guard of each rule of `_parse_facts`, read off the source: exact
membership in `HOME_TYPES`; substring `Built in`; substring `days on Zillow`;
no colon in the text; substring `Posted`; else-branch (always true). -/
def factCond (homeTypes : List String) (r : FactRule) (fact : String) : Bool :=
  match r with
  | .homeType => homeTypes.contains fact
  | .builtIn => listHasSub "Built in".toList fact.toList
  | .daysOnZillow => listHasSub "days on Zillow".toList fact.toList
  | .extras => (pySplitChar ':' fact.toList).length == 1
  | .posted => listHasSub "Posted".toList fact.toList
  | .generic => true

/-- The `if/elif` chain of `_parse_facts`: the first rule whose guard holds. -/
def classifyFact (homeTypes : List String) (fact : String) : FactRule :=
  if homeTypes.contains fact then .homeType
  else if listHasSub "Built in".toList fact.toList then .builtIn
  else if listHasSub "days on Zillow".toList fact.toList then .daysOnZillow
  else if (pySplitChar ':' fact.toList).length == 1 then .extras
  else if listHasSub "Posted".toList fact.toList then .posted
  else .generic

/-- The body of the branch `_parse_facts` selects for one fact, updating the
accumulated dict; `now` is the value of `datetime.now()` in days. -/
def parseFactStep (homeTypes : List String) (now : Int) (parsed : Dict)
    (fact : String) : Except Err Dict :=
  match classifyFact homeTypes fact with
  | .homeType => .ok (dset parsed "home_type" (some (Val.s fact)))
  | .builtIn =>
    match findBuiltInAux fact.toList with
    | none => .error Err.indexErr
    | some y => .ok (dset parsed "year" (some (Val.s y)))
  | .daysOnZillow =>
    match findDaysAux fact.toList with
    | none => .error Err.indexErr
    | some d => .ok (dset parsed "days_on_zillow" (some (Val.s d)))
  | .extras =>
    match dget parsed "extras" with
    | some (some (Val.sList l)) =>
      .ok (dset parsed "extras" (some (Val.sList (l ++ [fact]))))
    | _ => .ok (dset parsed "extras" (some (Val.sList [fact])))
  | .posted =>
    let string := subHash fact.toList
    match (pySplitChar ':' string).drop 1 with
    | [] => .error Err.indexErr
    | t :: _ =>
      let days := (pySplitChar ' ' (pyStripWs t)).headD []
      match pyToInt days with
      | none => .error (Err.valueErr "invalid literal for int")
      | some n => .ok (dset parsed "posted" (some (Val.time (now - n))))
  | .generic =>
    let string := subHash fact.toList
    match pySplitChar ':' string with
    | [] => .error Err.indexErr
    | k :: restParts =>
      match restParts with
      | [] => .error Err.indexErr
      | v :: _ =>
        .ok (dset parsed (pyNormalizeKey (String.mk k))
          (some (Val.s (String.mk (pyStripWs v)))))

/-- The loop of `_parse_facts` over the fact texts, threading the dict. -/
def parseFactsAux (homeTypes : List String) (now : Int) :
    List String → Dict → Except Err Dict
  | [], parsed => .ok parsed
  | fact :: rest, parsed =>
    match parseFactStep homeTypes now parsed fact with
    | .error e => .error e
    | .ok parsed => parseFactsAux homeTypes now rest parsed

/-- `_parse_facts(facts)` from the source.  `homeTypes` stands for
`constants.HOME_TYPES` (whose module is not under `src/`); `now` for
`datetime.now()` in whole days. -/
def _parse_facts (homeTypes : List String) (now : Int) (facts : List String) :
    Except Err Dict :=
  parseFactsAux homeTypes now facts []

/-- Python `s.strip(c)` for a single strip character: remove every leading
and trailing occurrence of `c`. -/
def pyStripChar (c : Char) (l : List Char) : List Char :=
  ((l.dropWhile (· = c)).reverse.dropWhile (· = c)).reverse

/-- Unsigned part of a `Decimal` numeral: digits with an optional fraction
(`123`, `123.`, `.5`); anything else is an `InvalidOperation`. -/
def parseDecCore (l : List Char) : Option Rat :=
  let intpart := l.takeWhile Char.isDigit
  let rest := l.dropWhile Char.isDigit
  match rest with
  | [] => if intpart.isEmpty then none else some (natOfDigits intpart)
  | '.' :: frac =>
    if frac.all Char.isDigit && !(intpart.isEmpty && frac.isEmpty) then
      some ((natOfDigits intpart : Rat) + (natOfDigits frac : Rat) / (10 ^ frac.length))
    else none
  | _ => none

/-- `Decimal(s)` for the numerals this scraper can meet: optional sign then
digits with optional fraction.  Exponent, infinity and NaN forms are out of
the claims' scope and map to `none` (an `InvalidOperation`, which the source
catches in the same `except` arms). -/
def decOfString (s : String) : Option Rat :=
  match s.toList with
  | '-' :: rest => (parseDecCore rest).map (fun q => -q)
  | '+' :: rest => parseDecCore rest
  | l => parseDecCore l

/-- The `try` block of the primary geolocation path (source lines 170-176):
take the second-to-last and last comma-separated elements of the stripped
comment, drop backslash characters from the longitude token, convert both
with `Decimal` and divide by `Decimal(1e6) = 10^6`.  `none` models any
exception inside the block (caught, both coordinates become null). -/
def tryPrimary (comment : String) : Option (Rat × Rat) := do
  let parsed := pySplitChar ',' (pyStripChar ']' (pyStripChar '[' comment.toList))
  let secondLast ← (parsed.reverse.drop 1).head?
  let latq ← decOfString (String.mk secondLast)
  let last ← parsed.reverse.head?
  let lonStr := last.filter (fun a => a ≠ '\\')
  let lonq ← decOfString (String.mk lonStr)
  pure (latq / 1000000, lonq / 1000000)

/-- Python falsiness of a coordinate slot: `None`, `Decimal(0)` and the empty
string are falsy (`if not lat:` in the source). -/
def coordFalsy : Option Coord → Bool
  | none => true
  | some (Coord.dec q) => q = 0
  | some (Coord.str s) => s = ""

/-- Value of a hex digit, as in percent-decoding. -/
def hexVal (c : Char) : Option Nat :=
  if '0' ≤ c ∧ c ≤ '9' then some (c.toNat - 48)
  else if 'a' ≤ c ∧ c ≤ 'f' then some (c.toNat - 87)
  else if 'A' ≤ c ∧ c ≤ 'F' then some (c.toNat - 55)
  else none

/-- Python `s.replace(" ,", ", ")` : replace every leftmost non-overlapping
space-comma pair by comma-space, continuing after each replacement. -/
def replaceCommaSpace : List Char → List Char
  | [] => []
  | [c] => [c]
  | c1 :: c2 :: rest =>
    if c1 = ' ' ∧ c2 = ',' then ',' :: ' ' :: replaceCommaSpace rest
    else c1 :: replaceCommaSpace (c2 :: rest)

/-- `urllib.unquote` restricted to single-byte escapes: decode every valid
`%hh` pair, leave malformed percents alone (and leave `+` alone — the source
replaces `+` itself afterwards). -/
def unquoteAux : List Char → List Char
  | '%' :: a :: b :: rest =>
    match hexVal a, hexVal b with
    | some x, some y => Char.ofNat (16 * x + y) :: unquoteAux rest
    | _, _ => '%' :: unquoteAux (a :: b :: rest)
  | c :: rest => c :: unquoteAux rest
  | [] => []

/-- The address-recovery `try` block (source lines 186-195): URL-decode the
`data-direction` attribute, cut the `addr=` query value up to the next `&`,
fix plus signs and comma spacing, and strip a trailing five-character dash
suffix.  `none` models any exception in the block (caught, address null). -/
def addrFromDirection (d : String) : Option String := do
  let u := unquoteAux d.toList
  let i ← findSubIdx "addr=".toList u
  let s1 := u.drop (i + 5)
  let j ← findSubIdx ['&'] s1
  let s2 := s1.take j
  let s3 := replaceCommaSpace (s2.map (fun c => if c = '+' then ' ' else c))
  if s3.length < 5 then none
  else if s3.get? (s3.length - 5) = some '-' then
    some (String.mk (s3.take (s3.length - 5)))
  else some (String.mk s3)

/-- The `hdp-map-coordinates` element: its three data attributes, each
possibly absent from the attribute map. -/
structure MapElem where
  dataLatitude : Option String
  dataLongitude : Option String
  dataDirection : Option String
  deriving DecidableEq, Repr

/-- One cell (`td`) of a history table row: its flattened text, its direct
`contents` text nodes, and the text of a contained `span` if any. -/
structure Cell where
  text : String
  contents : List String
  span : Option String
  deriving DecidableEq, Repr

/-- A history `table`: its `tbody` rows, `none` when no `tbody` exists. -/
structure Table where
  tbody : Option (List (List Cell))
  deriving DecidableEq, Repr

/-- The re-parsed ajax HTML fragment: whether it contains a `table`. -/
structure AjaxDoc where
  table : Option Table
  deriving DecidableEq, Repr

/-- Outcome of every document query the scraper performs, i.e. the parsed
page as the scraper observes it through BeautifulSoup. -/
structure Soup where
  /-- Text of the `PROP_SUMMARY_CLASS` div, `none` when the region is absent. -/
  propSummary : Option String
  /-- Text of the `DESCRIPTION` div, `none` when the region is absent. -/
  descriptionText : Option String
  /-- Texts of the `home-summary-row` elements inside the `HOME_VALUE` div;
  `none` when that div is absent (`find` returned `None`). -/
  homeValueRows : Option (List String)
  /-- `str` of the text-node list of each `zest-title` div, in order. -/
  zestTitles : List String
  /-- Text nodes of each `zest-value` div, in order. -/
  zestValues : List (List String)
  /-- Texts of the `li` items of the `FACT_GROUPING` lists, flattened. -/
  factTexts : List String
  /-- `(href, src)` attributes of the `ol.photos img` elements. -/
  photoAttrs : List (Option String × Option String)
  /-- `homeMarkerData` div: `none` when absent; `some c` when present, with
  `c` the content of the embedded comment node, or `none` when the div holds
  no comment node. -/
  markerComment : Option (Option String)
  /-- The `hdp-map-coordinates` element, `none` when absent. -/
  mapElem : Option MapElem
  /-- Result of the `AjaxRender` descriptor search over the page text for a
  module label: the captured relative URL, `none` when the pattern finds
  nothing. -/
  ajaxUrls : String → Option String

/-- The results of Python `re` calls on the summary and sale-info patterns.
These patterns' exact semantics decide no claim, so — like BeautifulSoup and
`requests` — the engine is a parameter of the embedding: `findall1` is
`re.findall` with one capture group, `findall2` with two, `testSearch` the
truthiness of `re.search`. -/
structure ReEngine where
  findall1 : String → String → List String
  findall2 : String → String → List (String × String)
  testSearch : String → String → Bool

/-- `_check_for_null_result`: raise `NullResultException` when the query
result is `None` (tags and match objects are always truthy). -/
def _check_for_null_result : Option α → Except Err Unit
  | none => .error Err.nullResult
  | some _ => .ok ()

/-- The six property-summary patterns, verbatim from the source. -/
def summaryRegexes : List (String × String) :=
  [("([\\d\\.]+) beds?", "bedrooms"),
   ("([\\d\\.]+) baths?", "bathrooms"),
   ("([\\d,\\.]+) sqft", "sqft"),
   ("((?:[A-Z]\\w+ ?)\x7b1,\x7d), [A-Z]\x7b2\x7d", "city"),
   ("(?:[A-Z]\\w+ ?)\x7b1,\x7d, ([A-Z]\x7b2\x7d)", "state"),
   ("[A-Z]\x7b2\x7d (\\d\x7b5\x7d-?(?:\\d\x7b4\x7d)?)", "zipcode")]

/-- Inner `parse_property` of `_get_property_summary`: store the first
`findall` capture, or `None` on `IndexError`. -/
def parse_property (re : ReEngine) (prop_summary : String) (results : Dict)
    (regex property_ : String) : Dict :=
  match re.findall1 regex prop_summary with
  | [] => dset results property_ none
  | x :: _ => dset results property_ (some (Val.s x))

/-- `_get_property_summary(soup)`: fatal `NullResultException` when the
summary region is absent; otherwise the dict of the six summary keys. -/
def _get_property_summary (re : ReEngine) (soup : Soup) : Except Err Dict :=
  match soup.propSummary with
  | none => .error Err.nullResult
  | some prop_summary =>
    .ok (summaryRegexes.foldl
      (fun results p => parse_property re prop_summary results p.1 p.2) [])

/-- `_get_description(soup)`: fatal `NullResultException` when the region is
absent; otherwise its text. -/
def _get_description (soup : Soup) : Except Err String :=
  match soup.descriptionText with
  | none => .error Err.nullResult
  | some t => .ok t

/-- `_get_photos(soup)`: prefer `href` over `src` per image, then
`filter(None, ...)` drops falsy entries (absent attributes and empty
strings). -/
def _get_photos (soup : Soup) : List String :=
  (((soup.photoAttrs.map (fun p => p.1.or p.2)).filter pyTruthyOptStr).map
    (fun o => o.getD ""))

/-- `_get_fact_list(soup)`: the flattened `li` texts of the fact groups. -/
def _get_fact_list (soup : Soup) : List String :=
  soup.factTexts

/-- The labeled-price pattern of `_get_sale_info`, verbatim. -/
def pricing_re : String :=
  "(Foreclosure Estimate|Below Zestimate|Rent Zestimate|Zestimate|Sold on|Sold|Price cut)(?:\xae)?:?[\n ]+-?\\$?([\\d,\\/\\w]+)"

/-- The status pattern of `_get_sale_info`, verbatim. -/
def status_re : String :=
  "(For Sale|Auction|Make Me Move|For Rent|Pre-Foreclosure|Off Market)"

/-- The bare-currency search pattern of `_get_sale_info`, verbatim. -/
def money_search_re : String := "\\$?[\\d,]+"

/-- The bare-currency capture pattern of `_get_sale_info`, verbatim. -/
def money_capture_re : String := "\\$?([\\d,]+)"

/-- The home-summary-row loop of `_get_sale_info`: labeled price first, then
status, then bare currency fallback into `price`. -/
def saleInfoRows (re : ReEngine) : List String → Dict → Except Err Dict
  | [], sale_info => .ok sale_info
  | row :: rest, sale_info =>
    match re.findall2 pricing_re row with
    | (lbl, v) :: _ =>
      saleInfoRows re rest
        (dset sale_info (pyNormalizeKey lbl) (some (Val.s v)))
    | [] =>
      match re.findall1 status_re row with
      | st :: _ => saleInfoRows re rest (dset sale_info "status" (some (Val.s st)))
      | [] =>
        if re.testSearch money_search_re row then
          match re.findall1 money_capture_re row with
          | [] => .error Err.indexErr
          | p :: _ => saleInfoRows re rest (dset sale_info "price" (some (Val.s p)))
        else saleInfoRows re rest sale_info

/-- The zestimate-title loop of `_get_sale_info`: for every title whose text
representation contains `rent`, read the first text node of the value div at
the same index and store its first currency capture. -/
def saleInfoZest (re : ReEngine) (values : List (List String)) :
    List (Nat × String) → Dict → Except Err Dict
  | [], sale_info => .ok sale_info
  | (i, title) :: rest, sale_info =>
    if listHasSub "rent".toList title.toList then
      match values.get? i with
      | none => .error Err.indexErr
      | some vtexts =>
        match vtexts with
        | [] => .error Err.indexErr
        | v0 :: _ =>
          match re.findall1 money_capture_re v0 with
          | [] => .error Err.indexErr
          | p :: _ =>
            saleInfoZest re values rest
              (dset sale_info "rent_zestimate" (some (Val.s p)))
    else saleInfoZest re values rest sale_info

/-- `_get_sale_info(soup)`: initializes the four fixed keys to `None`, then
runs the row loop and the zestimate loop; `AttributeError` when the
`HOME_VALUE` div is absent (`None.find_all`). -/
def _get_sale_info (re : ReEngine) (soup : Soup) : Except Err Dict := do
  let init : Dict :=
    [("price", none), ("status", none), ("zestimate", none), ("rent_zestimate", none)]
  match soup.homeValueRows with
  | none => .error Err.attrErr
  | some summary_rows =>
    let sale_info ← saleInfoRows re summary_rows init
    saleInfoZest re soup.zestValues soup.zestTitles.enum sale_info

/-- The address-recovery section of `_get_location_data`: the whole block is
wrapped in a `try/except` whose failure (absent fallback element, absent
attribute, or any parsing failure) yields a null address. -/
def addrOf (soup : Soup) : Option String :=
  match soup.mapElem with
  | none => none
  | some e =>
    match e.dataDirection with
    | none => none
    | some d => addrFromDirection d

/-- `_get_location_data(soup)`, translated line by line: primary path through
the marker comment (its `try` covering only the `Decimal` conversions — a
present div without a comment node raises `AttributeError` on
`comments.string` outside the `try`), falsy-guarded secondary path through
the data attributes, and independent address recovery. -/
def _get_location_data (soup : Soup) : Except Err Location := do
  let primary : Option Coord × Option Coord ←
    match soup.markerComment with
    | none => .ok (none, none)
    | some none => .error Err.attrErr
    | some (some comment) =>
      match tryPrimary comment with
      | some (la, lo) => .ok (some (Coord.dec la), some (Coord.dec lo))
      | none => .ok (none, none)
  let lat ←
    if coordFalsy primary.1 then
      match soup.mapElem with
      | none => .error Err.attrErr
      | some e =>
        match e.dataLatitude with
        | none => .error Err.keyErr
        | some s => .ok (some (Coord.str s))
    else .ok primary.1
  let lon ←
    if coordFalsy primary.2 then
      match soup.mapElem with
      | none => .error Err.attrErr
      | some e =>
        match e.dataLongitude with
        | none => .error Err.keyErr
        | some s => .ok (some (Coord.str s))
    else .ok primary.2
  .ok { latitude := lat, longitude := lon, address := addrOf soup }

/-- `_get_ajax_url(soup, label)`: `NullResultException` when the descriptor
search finds nothing, else the absolute ajax URL. -/
def _get_ajax_url (soup : Soup) (label : String) : Except Err String :=
  match soup.ajaxUrls label with
  | none => .error Err.nullResult
  | some u => .ok ("http://www.zillow.com" ++ u)

/-- Both parses of one HTTP response body: as the main listing page, and
through the ajax-envelope pattern of `_get_table_body` (`none` when the
`{ "html": ... }` pattern does not match, where the source hits
`AttributeError` on `.group`). -/
structure RawHtml where
  asPage : Soup
  envelope : Option AjaxDoc

/-- One HTTP response: status code, final post-redirect URL, body. -/
structure Resp where
  status : Nat
  url : String
  content : RawHtml

/-- The injectable HTTP client: a URL determines its response. -/
structure Env where
  getResp : String → Resp

/-- The scraper's effect monad: `Except Err` plus a log of every URL passed
to the HTTP client, so that "no request was issued" is statable. -/
def M (α : Type) : Type := List String → Except Err α × List String

/-- Monadic bind for `M`: short-circuit on error, keep the log. -/
def mbind (x : M α) (f : α → M β) : M β := fun l =>
  match x l with
  | (.ok a, l') => f a l'
  | (.error e, l') => (.error e, l')

/-- Monadic pure for `M`. -/
def mpure (a : α) : M α := fun l => (.ok a, l)

instance : Monad M where
  pure := mpure
  bind := mbind

/-- Raise a Python exception inside `M`. -/
def mthrow (e : Err) : M α := fun l => (.error e, l)

/-- `try/except` inside `M`: state changes of the failed attempt (the URLs
it fetched) persist, as they do in Python. -/
def mtryCatch (x : M α) (handle : Err → M α) : M α := fun l =>
  match x l with
  | (.ok a, l') => (.ok a, l')
  | (.error e, l') => handle e l'

instance : MonadExceptOf Err M where
  throw := mthrow
  tryCatch := mtryCatch

/-- Run a pure `Except` computation inside `M`. -/
def liftE (x : Except Err α) : M α := fun l => (x, l)

/-- Record one URL in the fetch log. -/
def logUrl (u : String) : M Unit := fun l => (.ok (), l ++ [u])

/-- `get_raw_html(url, timeout, request_class)`: GET the URL (logged),
generic `Exception` on a non-OK status, generic `Exception` on a redirect to
the homes landing page, else the body. -/
def get_raw_html (env : Env) (url : String) (timeout : Nat) : M RawHtml := do
  logUrl url
  let response := env.getResp url
  if response.status ≠ 200 then
    mthrow (Err.fetchErr "bad status")
  else if response.url = ZILLOW_HOMES_URL then
    mthrow (Err.fetchErr "redirected to the homes page")
  else
    mpure response.content

/-- `_get_table_body(ajax_url, ...)`: fetch, unwrap the envelope
(`AttributeError` when the pattern fails), find the table (`ValueError` when
absent — "There is no table history"), return its `tbody` (possibly `None`). -/
def _get_table_body (env : Env) (ajax_url : String) (timeout : Nat) :
    M (Option (List (List Cell))) := do
  let html ← get_raw_html env ajax_url timeout
  match html.envelope with
  | none => mthrow Err.attrErr
  | some doc =>
    match doc.table with
    | none => mthrow (Err.valueErr "There is no table history")
    | some table => mpure table.tbody

/-- The per-row extraction of `_get_price_history`: `cols[0]` and `cols[1]`
unguarded, `cols[2]` guarded by a `try/except IndexError` around the span
lookup; a missing or empty span yields a null price. -/
def priceRowExtract (cols : List Cell) : Except Err (String × String × Option String) :=
  match cols.get? 0 with
  | none => .error Err.indexErr
  | some c0 =>
    match cols.get? 1 with
    | none => .error Err.indexErr
    | some c1 =>
      let price_span : Option String :=
        match cols.get? 2 with
        | none => none
        | some c2 => c2.span
      .ok (c0.text, c1.text, price_span)

/-- `_get_price_history(ajax_url, ...)`: table body rows (`AttributeError`
when the table has no `tbody`), each mapped through the row extraction. -/
def _get_price_history (env : Env) (ajax_url : String) (timeout : Nat) :
    M (List (String × String × Option String)) := do
  let table_body ← _get_table_body env ajax_url timeout
  match table_body with
  | none => mthrow Err.attrErr
  | some rows => liftE (rows.mapM priceRowExtract)

/-- The per-row extraction of `_get_tax_history`: columns 0, 1 and 3; column
1 read through `contents[0]`; column 2 never read. -/
def taxRowExtract (cols : List Cell) : Except Err (String × String × String) :=
  match cols.get? 0 with
  | none => .error Err.indexErr
  | some c0 =>
    match cols.get? 1 with
    | none => .error Err.indexErr
    | some c1 =>
      match c1.contents.head? with
      | none => .error Err.indexErr
      | some tax =>
        match cols.get? 3 with
        | none => .error Err.indexErr
        | some c3 => .ok (c0.text, tax, c3.text)

/-- `_get_tax_history(ajax_url, ...)`: a `ValueError` from `_get_table_body`
(no table) returns the empty row list; other errors propagate; otherwise the
rows are mapped through the tax row extraction. -/
def _get_tax_history (env : Env) (ajax_url : String) (timeout : Nat) :
    M (List (String × String × String)) := do
  let caught ← mtryCatch (do
      let tb ← _get_table_body env ajax_url timeout
      mpure (some tb))
    (fun e => match e with
      | Err.valueErr _ => mpure none
      | e => mthrow e)
  match caught with
  | none => mpure []
  | some none => mthrow Err.attrErr
  | some (some rows) => liftE (rows.mapM taxRowExtract)

/-- The first `try/except NullResultException` statement of
`populate_price_and_tax_histories`: locate the price-history descriptor,
fetch, store under `price_history`; a `NullResultException` is caught (and
logged), any other exception propagates. -/
def populate_price_stage (env : Env) (timeout : Nat) (soup : Soup)
    (results : Dict) : M Dict :=
  mtryCatch (do
      let history_url ← liftE (_get_ajax_url soup "z-hdp-price-history")
      let ph ← _get_price_history env history_url timeout
      mpure (dset results "price_history" (some (Val.priceRows ph))))
    (fun e => match e with
      | Err.nullResult => mpure results
      | e => mthrow e)

/-- The second `try/except NullResultException` statement of
`populate_price_and_tax_histories`, for the tax history. -/
def populate_tax_stage (env : Env) (timeout : Nat) (soup : Soup)
    (results : Dict) : M Dict :=
  mtryCatch (do
      let tax_url ← liftE (_get_ajax_url soup "z-expando-table")
      let th ← _get_tax_history env tax_url timeout
      mpure (dset results "tax_history" (some (Val.taxRows th))))
    (fun e => match e with
      | Err.nullResult => mpure results
      | e => mthrow e)

/-- `populate_price_and_tax_histories(soup, results, ...)`: the two history
types in sequence, each wrapped in `try/except NullResultException` only —
any other exception propagates.  Returns the updated results dict. -/
def populate_price_and_tax_histories (env : Env) (timeout : Nat) (soup : Soup)
    (results : Dict) : M Dict := do
  let results ← populate_price_stage env timeout soup results
  populate_tax_stage env timeout soup results

/-- `scrape_url(url, zpid, request_timeout, request_class,
get_price_and_tax_info)`, the orchestrator, translated statement by
statement.  `homeTypes` and `now` are the ambient `constants.HOME_TYPES` and
`datetime.now()`; `re` and `env` the regex engine and HTTP client. -/
def scrape_url (re : ReEngine) (env : Env) (homeTypes : List String) (now : Int)
    (url zpid : Option String) (request_timeout : Nat)
    (get_price_and_tax_info : Bool) : M Dict := do
  let url ← liftE (validate_scraper_input url zpid)
  let raw ← get_raw_html env url request_timeout
  let soup := raw.asPage
  let results ← liftE (_get_property_summary re soup)
  let facts ← liftE (_parse_facts homeTypes now (_get_fact_list soup))
  let results := dupdate results facts
  let sale_info ← liftE (_get_sale_info re soup)
  let results := dupdate results sale_info
  let description ← liftE (_get_description soup)
  let results := dset results "description" (some (Val.s description))
  let results := dset results "photos" (some (Val.sList (_get_photos soup)))
  let location ← liftE (_get_location_data soup)
  let results := dset results "location_data" (some (Val.loc location))
  if get_price_and_tax_info then
    populate_price_and_tax_histories env request_timeout soup results
  else
    mpure results

/-- Run a scraper computation on an empty fetch log. -/
def runM (x : M α) : Except Err α × List String := x []

/-- The keys of a dict, in insertion order. -/
def dkeys (d : Dict) : List String := d.map Prod.fst

/-! ### Concrete fixtures used by witnesses and counterexamples -/

/-- A regex engine on which every abstract pattern finds nothing. -/
def emptyRe : ReEngine := ⟨fun _ _ => [], fun _ _ => [], fun _ _ => false⟩

/-- A minimal listing page containing both mandatory regions. -/
def demoSoup : Soup where
  propSummary := some "3 beds 2 baths"
  descriptionText := some "A lovely home"
  homeValueRows := some []
  zestTitles := []
  zestValues := []
  factTexts := []
  photoAttrs := []
  markerComment := none
  mapElem := some ⟨some "40.0", some "-74.0", none⟩
  ajaxUrls := fun _ => none

/-- A client serving `demoSoup` for every URL. -/
def demoEnv : Env := ⟨fun _ => ⟨200, "final", ⟨demoSoup, none⟩⟩⟩

/-- The listing URL used by the concrete runs. -/
def demoUrl : String := "http://www.zillow.com/homes/123_zpid/"

/-- The record `scrape_url` assembles for `demoSoup` under `emptyRe`. -/
def demoRec : Dict :=
  [("bedrooms", none), ("bathrooms", none), ("sqft", none), ("city", none),
   ("state", none), ("zipcode", none),
   ("price", none), ("status", none), ("zestimate", none),
   ("rent_zestimate", none),
   ("description", some (Val.s "A lovely home")),
   ("photos", some (Val.sList [])),
   ("location_data", some (Val.loc
     ⟨some (Coord.str "40.0"), some (Coord.str "-74.0"), none⟩))]

/-- A page missing the description region and the home-value region. -/
def noDescSoup : Soup :=
  { demoSoup with descriptionText := none, homeValueRows := none }

/-- A client serving `noDescSoup`. -/
def noDescEnv : Env := ⟨fun _ => ⟨200, "final", ⟨noDescSoup, none⟩⟩⟩

/-- A page missing the property-summary region. -/
def noSummarySoup : Soup := { demoSoup with propSummary := none }

/-- A client serving `noSummarySoup`. -/
def noSummaryEnv : Env := ⟨fun _ => ⟨200, "final", ⟨noSummarySoup, none⟩⟩⟩

/-- A page missing only the description region. -/
def noDescOnlySoup : Soup := { demoSoup with descriptionText := none }

/-- A client serving `noDescOnlySoup`. -/
def noDescOnlyEnv : Env := ⟨fun _ => ⟨200, "final", ⟨noDescOnlySoup, none⟩⟩⟩

/-- An ajax response whose envelope parses but holds no table. -/
def noTableAjax : RawHtml := ⟨demoSoup, some ⟨none⟩⟩

/-- One 3-cell price-history row. -/
def demoPriceRow : List Cell :=
  [⟨"04/01/2015", ["04/01/2015"], none⟩, ⟨"Sold", ["Sold"], none⟩,
   ⟨"$100,000", [], some "$100,000"⟩]

/-- One 4-cell tax-history row; cell 2 is the one the mapping discards. -/
def demoTaxRow : List Cell :=
  [⟨"2015", ["2015"], none⟩, ⟨"$1,200", ["$1,200"], none⟩,
   ⟨"ignored", ["ignored"], none⟩, ⟨"$90,000", ["$90,000"], none⟩]

/-- An ajax response holding a table with one price row. -/
def priceTableAjax : RawHtml := ⟨demoSoup, some ⟨some ⟨some [demoPriceRow]⟩⟩⟩

/-- A page advertising only a price-history descriptor. -/
def priceOnlySoup : Soup :=
  { demoSoup with
    ajaxUrls := fun lbl =>
      if lbl = "z-hdp-price-history" then some "/Ajax1" else none }

/-- A page advertising both history descriptors. -/
def bothHistSoup : Soup :=
  { demoSoup with
    ajaxUrls := fun lbl =>
      if lbl = "z-hdp-price-history" then some "/Ajax1"
      else if lbl = "z-expando-table" then some "/Ajax2" else none }

/-- A client whose price-history fetch returns a fragment with no table. -/
def priceNoTableEnv : Env :=
  ⟨fun u =>
    if u = "http://www.zillow.com/Ajax1" then ⟨200, "a", noTableAjax⟩
    else ⟨200, "final", ⟨priceOnlySoup, none⟩⟩⟩

/-- A client whose price-history fetch yields one row and whose tax-history
fetch returns a fragment with no table. -/
def taxNoTableEnv : Env :=
  ⟨fun u =>
    if u = "http://www.zillow.com/Ajax1" then ⟨200, "a", priceTableAjax⟩
    else if u = "http://www.zillow.com/Ajax2" then ⟨200, "a", noTableAjax⟩
    else ⟨200, "final", ⟨bothHistSoup, none⟩⟩⟩

/-- A page whose marker comment carries the example micro-degree payload. -/
def coordSoup : Soup :=
  { demoSoup with markerComment := some (some "[40123456,-74654321]") }

/-- A page whose marker div is present but holds no comment node. -/
def noCommentSoup : Soup := { demoSoup with markerComment := some none }

/-- A page whose marker comment cannot be converted (one element, no digits). -/
def badCommentSoup : Soup := { demoSoup with markerComment := some (some "x") }

/-! ### Helper lemmas about the dictionary model -/

theorem dkeys_nil : dkeys [] = [] := rfl

theorem dkeys_cons (p : String × Option Val) (l : Dict) :
    dkeys (p :: l) = p.1 :: dkeys l := rfl

theorem dget_dset (d : Dict) (k : String) (v : Option Val) (k' : String) :
    dget (dset d k v) k' = if k' = k then some v else dget d k' := by
  induction d with
  | nil =>
    simp only [dset, dget]
    by_cases h : k' = k
    · simp [h]
    · simp [h, Ne.symm h]
  | cons p rest ih =>
    simp only [dset]
    by_cases hp : p.1 = k
    · simp only [if_pos hp, dget]
      by_cases h : k' = k
      · simp [h]
      · have hpk' : p.1 ≠ k' := fun hh => h ((hp.symm.trans hh).symm)
        simp [h, Ne.symm h, hpk']
    · simp only [if_neg hp, dget, ih]
      by_cases h : k' = k
      · subst h
        simp [hp]
      · by_cases hq : p.1 = k' <;> simp [hq, h]

theorem dget_dset_isSome (d : Dict) (k : String) (v : Option Val) (k' : String)
    (h : (dget d k').isSome) : (dget (dset d k v) k').isSome := by
  rw [dget_dset]
  by_cases hk : k' = k <;> simp [hk, h]

theorem dupdate_nil (d : Dict) : dupdate d [] = d := rfl

theorem dupdate_cons (d : Dict) (p : String × Option Val) (o : Dict) :
    dupdate d (p :: o) = dupdate (dset d p.1 p.2) o := rfl

theorem dget_dupdate_isSome (other : Dict) :
    ∀ (d : Dict) (k : String), (dget d k).isSome →
      (dget (dupdate d other) k).isSome := by
  induction other with
  | nil => intro d k h; simpa [dupdate_nil] using h
  | cons p o ih =>
    intro d k h
    rw [dupdate_cons]
    exact ih _ _ (dget_dset_isSome _ _ _ _ h)

theorem dget_dupdate_not_mem (other : Dict) :
    ∀ (d : Dict) (k : String), (∀ p ∈ other, p.1 ≠ k) →
      dget (dupdate d other) k = dget d k := by
  induction other with
  | nil => intro d k _; simp [dupdate_nil]
  | cons p o ih =>
    intro d k h
    rw [dupdate_cons, ih _ _ (fun q hq => h q (List.mem_cons_of_mem _ hq)),
      dget_dset]
    have hne := h p (List.mem_cons_self _ _)
    simp [Ne.symm hne]

theorem mem_dkeys_dset (d : Dict) (k : String) (v : Option Val) (x : String) :
    x ∈ dkeys (dset d k v) → x = k ∨ x ∈ dkeys d := by
  induction d with
  | nil =>
    intro h
    simp only [dset, dkeys_cons, dkeys_nil, List.mem_cons, List.not_mem_nil,
      or_false] at h
    exact Or.inl h
  | cons p rest ih =>
    intro h
    by_cases hp : p.1 = k
    · simp only [dset, if_pos hp, dkeys_cons, List.mem_cons] at h
      rcases h with h | h
      · exact Or.inl h
      · exact Or.inr (by simp [dkeys_cons, h])
    · simp only [dset, if_neg hp, dkeys_cons, List.mem_cons] at h
      rcases h with h | h
      · exact Or.inr (by simp [dkeys_cons, h])
      · rcases ih h with h' | h'
        · exact Or.inl h'
        · exact Or.inr (by simp [dkeys_cons, h'])

theorem dkeys_nodup_dset (d : Dict) (k : String) (v : Option Val)
    (h : (dkeys d).Nodup) : (dkeys (dset d k v)).Nodup := by
  induction d with
  | nil => simp [dset, dkeys_cons, dkeys_nil]
  | cons p rest ih =>
    simp only [dkeys_cons, List.nodup_cons] at h
    by_cases hp : p.1 = k
    · simp only [dset, if_pos hp, dkeys_cons, List.nodup_cons]
      exact ⟨hp ▸ h.1, h.2⟩
    · simp only [dset, if_neg hp, dkeys_cons, List.nodup_cons]
      refine ⟨fun hm => ?_, ih h.2⟩
      rcases mem_dkeys_dset rest k v p.1 hm with h' | h'
      · exact hp h'
      · exact h.1 h'

theorem dget_dupdate_of_nodup (other : Dict) :
    ∀ (d : Dict) (k : String) (v : Option Val), (dkeys other).Nodup →
      dget other k = some v → dget (dupdate d other) k = some v := by
  induction other with
  | nil => intro d k v _ h; simp [dget] at h
  | cons p o ih =>
    intro d k v hnd h
    simp only [dkeys_cons, List.nodup_cons] at hnd
    by_cases hk : p.1 = k
    · simp only [dget, if_pos hk] at h
      rw [dupdate_cons, dget_dupdate_not_mem o _ _
        (fun q hq hqk => hnd.1
          ((hqk.trans hk.symm) ▸ (List.mem_map_of_mem Prod.fst hq))),
        dget_dset]
      simp [hk, ← h]
    · simp only [dget, if_neg hk] at h
      rw [dupdate_cons]
      exact ih _ _ _ hnd.2 h

/-! ### Claim C3 — input validation -/

/-- C3: calling with both an address and an identifier fails with
`InvalidInput` (a `ValueError`); with neither, fails with `InvalidInput`;
with an address lacking the `homes` listing segment, fails with
`InvalidInput`; with only an identifier, returns the canonical address
obtained by substituting it into the fixed URL template.  The validator is a
pure function of its two arguments, so it has no side effects by
construction. -/
theorem validate_scraper_input_contract (url zpid : Option String) (z : String) :
    (pyTruthyOptStr url = true → pyTruthyOptStr zpid = true →
      validate_scraper_input url zpid =
        .error (Err.valueErr
          "You cannot specify both a url and a zpid. Choode one or the other")) ∧
    (pyTruthyOptStr url = false → pyTruthyOptStr zpid = false →
      validate_scraper_input url zpid =
        .error (Err.valueErr
          "You must specify either a zpid or a url of the home to scrape")) ∧
    (∀ s, url = some s → s ≠ "" → pyTruthyOptStr zpid = false →
      listHasSub "homes".toList s.toList = false →
      validate_scraper_input url zpid =
        .error (Err.valueErr
          "This program only supports gathering data for homes")) ∧
    (z ≠ "" →
      validate_scraper_input none (some z) =
        .ok (urljoin ZILLOW_URL ("homes/" ++ z ++ "_zpid/(index)/"))) := by
  refine ⟨fun h1 h2 => ?_, fun h1 h2 => ?_, fun s hs hne hz hh => ?_, fun hz => ?_⟩
  · simp [validate_scraper_input, h1, h2]
  · simp [validate_scraper_input, h1, h2]
  · subst hs
    have hu : pyTruthyOptStr (some s) = true := by simp [pyTruthyOptStr, hne]
    simp only [validate_scraper_input, hu, hz, Bool.and_false, Bool.true_and,
      Bool.not_true, Bool.false_and, Bool.and_true, if_false, Bool.not_false]
    simp [Option.getD]
    exact hh
  · have hu : pyTruthyOptStr (some z) = true := by simp [pyTruthyOptStr, hz]
    simp [validate_scraper_input, hu, pyTruthyOptStr]
    exact hz

/-- Witness for C3 at concrete inputs: both given, neither given, an address
without the listing segment, and a bare identifier. -/
theorem validate_scraper_input_contract_witness :
    (validate_scraper_input (some "http://www.zillow.com/homes/1_zpid/") (some "1") =
      .error (Err.valueErr
        "You cannot specify both a url and a zpid. Choode one or the other")) ∧
    (validate_scraper_input none none =
      .error (Err.valueErr
        "You must specify either a zpid or a url of the home to scrape")) ∧
    (validate_scraper_input (some "http://example.com/") none =
      .error (Err.valueErr
        "This program only supports gathering data for homes")) ∧
    (validate_scraper_input none (some "12345") =
      .ok (urljoin ZILLOW_URL ("homes/" ++ "12345" ++ "_zpid/(index)/"))) :=
  ⟨(validate_scraper_input_contract (some "http://www.zillow.com/homes/1_zpid/")
      (some "1") "").1 (by decide) (by decide),
   (validate_scraper_input_contract none none "").2.1 (by decide) (by decide),
   (validate_scraper_input_contract (some "http://example.com/") none "").2.2.1
      "http://example.com/" rfl (by decide) (by decide) (by decide),
   (validate_scraper_input_contract none none "12345").2.2.2 (by decide)⟩

/-! ### Claim C9 — tax-history row mapping -/

/-- C9: for every table row holding at least 4 columns with their data
(date, tax, anything, assessment), the extracted tax-history row is
`(date, tax, assessment)` drawn from column indices 0, 1 and 3 — and the
extraction never depends on column index 2: overwriting that column with any
cell leaves the result unchanged. -/
theorem tax_history_row_mapping (cols : List Cell) (c0 c1 c3 : Cell) (t : String)
    (h0 : cols.get? 0 = some c0) (h1 : cols.get? 1 = some c1)
    (h3 : cols.get? 3 = some c3) (ht : c1.contents.head? = some t) :
    taxRowExtract cols = .ok (c0.text, t, c3.text) ∧
    ∀ x : Cell, taxRowExtract (cols.set 2 x) = .ok (c0.text, t, c3.text) := by
  rw [List.get?_eq_getElem?] at h0 h1 h3
  constructor
  · simp [taxRowExtract, h0, h1, h3, ht]
  · intro x
    have e0 : (cols.set 2 x)[0]? = some c0 := by
      rw [List.getElem?_set_ne (by decide)]; exact h0
    have e1 : (cols.set 2 x)[1]? = some c1 := by
      rw [List.getElem?_set_ne (by decide)]; exact h1
    have e3 : (cols.set 2 x)[3]? = some c3 := by
      rw [List.getElem?_set_ne (by decide)]; exact h3
    simp [taxRowExtract, e0, e1, e3, ht]

/-- Witness for C9 on the concrete demo row, with column 2 overwritten by a
concrete unrelated cell. -/
theorem tax_history_row_mapping_witness :
    taxRowExtract demoTaxRow = .ok ("2015", "$1,200", "$90,000") ∧
    taxRowExtract (demoTaxRow.set 2 ⟨"other", ["other"], none⟩) =
      .ok ("2015", "$1,200", "$90,000") :=
  ⟨(tax_history_row_mapping demoTaxRow _ _ _ _ rfl rfl rfl rfl).1,
   (tax_history_row_mapping demoTaxRow _ _ _ _ rfl rfl rfl rfl).2
     ⟨"other", ["other"], none⟩⟩

/-! ### Claim C4 — fact classification -/

theorem ruleIdx_inj : ∀ a b : FactRule, ruleIdx a = ruleIdx b → a = b := by
  intro a b
  cases a <;> cases b <;> simp [ruleIdx]

theorem classifyFact_spec (homeTypes : List String) (fact : String) :
    factCond homeTypes (classifyFact homeTypes fact) fact = true ∧
    ∀ r' : FactRule, ruleIdx r' < ruleIdx (classifyFact homeTypes fact) →
      factCond homeTypes r' fact = false := by
  by_cases c0 : homeTypes.contains fact = true
  · have hcl : classifyFact homeTypes fact = .homeType := by
      unfold classifyFact
      rw [if_pos c0]
    refine ⟨by rw [hcl]; simpa only [factCond] using c0, ?_⟩
    intro r' h
    rw [hcl] at h
    cases r' <;> exact absurd h (by decide)
  · by_cases c1 : listHasSub "Built in".toList fact.toList = true
    · have hcl : classifyFact homeTypes fact = .builtIn := by
        unfold classifyFact
        rw [if_neg c0, if_pos c1]
      rw [Bool.not_eq_true] at c0
      refine ⟨by rw [hcl]; simpa only [factCond] using c1, ?_⟩
      intro r' h
      rw [hcl] at h
      cases r' with
      | homeType => simpa only [factCond] using c0
      | builtIn => exact absurd h (by decide)
      | daysOnZillow => exact absurd h (by decide)
      | extras => exact absurd h (by decide)
      | posted => exact absurd h (by decide)
      | generic => exact absurd h (by decide)
    · by_cases c2 : listHasSub "days on Zillow".toList fact.toList = true
      · have hcl : classifyFact homeTypes fact = .daysOnZillow := by
          unfold classifyFact
          rw [if_neg c0, if_neg c1, if_pos c2]
        rw [Bool.not_eq_true] at c0 c1
        refine ⟨by rw [hcl]; simpa only [factCond] using c2, ?_⟩
        intro r' h
        rw [hcl] at h
        cases r' with
        | homeType => simpa only [factCond] using c0
        | builtIn => simpa only [factCond] using c1
        | daysOnZillow => exact absurd h (by decide)
        | extras => exact absurd h (by decide)
        | posted => exact absurd h (by decide)
        | generic => exact absurd h (by decide)
      · by_cases c3 : ((pySplitChar ':' fact.toList).length == 1) = true
        · have hcl : classifyFact homeTypes fact = .extras := by
            unfold classifyFact
            rw [if_neg c0, if_neg c1, if_neg c2, if_pos c3]
          rw [Bool.not_eq_true] at c0 c1 c2
          refine ⟨by rw [hcl]; simpa only [factCond] using c3, ?_⟩
          intro r' h
          rw [hcl] at h
          cases r' with
          | homeType => simpa only [factCond] using c0
          | builtIn => simpa only [factCond] using c1
          | daysOnZillow => simpa only [factCond] using c2
          | extras => exact absurd h (by decide)
          | posted => exact absurd h (by decide)
          | generic => exact absurd h (by decide)
        · by_cases c4 : listHasSub "Posted".toList fact.toList = true
          · have hcl : classifyFact homeTypes fact = .posted := by
              unfold classifyFact
              rw [if_neg c0, if_neg c1, if_neg c2, if_neg c3, if_pos c4]
            rw [Bool.not_eq_true] at c0 c1 c2 c3
            refine ⟨by rw [hcl]; simpa only [factCond] using c4, ?_⟩
            intro r' h
            rw [hcl] at h
            cases r' with
            | homeType => simpa only [factCond] using c0
            | builtIn => simpa only [factCond] using c1
            | daysOnZillow => simpa only [factCond] using c2
            | extras => simpa only [factCond] using c3
            | posted => exact absurd h (by decide)
            | generic => exact absurd h (by decide)
          · have hcl : classifyFact homeTypes fact = .generic := by
              unfold classifyFact
              rw [if_neg c0, if_neg c1, if_neg c2, if_neg c3, if_neg c4]
            rw [Bool.not_eq_true] at c0 c1 c2 c3 c4
            refine ⟨by rw [hcl]; simp only [factCond], ?_⟩
            intro r' h
            rw [hcl] at h
            cases r' with
            | homeType => simpa only [factCond] using c0
            | builtIn => simpa only [factCond] using c1
            | daysOnZillow => simpa only [factCond] using c2
            | extras => simpa only [factCond] using c3
            | posted => simpa only [factCond] using c4
            | generic => exact absurd h (by decide)

/-- C4: fact classification is total and order-sensitive: for every fact
text, a rule "fires" exactly when its guard holds and no earlier rule's
guard does, and the rule that fires is exactly the one the `if/elif` chain
selects — so exactly one rule fires, first match winning in the stated
priority order.  Moreover `Built in 1925` yields `year = "1925"`,
`3 days on Zillow` yields `days_on_zillow = "3"`, and `Has garage` (no
colon) is appended to `extras` — each provided the text is not one of the
(ambient) `HOME_TYPES` labels. -/
theorem fact_classification_total_ordered (homeTypes : List String)
    (fact : String) (now : Int) :
    (∀ r : FactRule,
      (factCond homeTypes r fact = true ∧
        ∀ r' : FactRule, ruleIdx r' < ruleIdx r →
          factCond homeTypes r' fact = false) ↔
      r = classifyFact homeTypes fact) ∧
    ("Built in 1925" ∉ homeTypes →
      _parse_facts homeTypes now ["Built in 1925"] =
        .ok [("year", some (Val.s "1925"))]) ∧
    ("3 days on Zillow" ∉ homeTypes →
      _parse_facts homeTypes now ["3 days on Zillow"] =
        .ok [("days_on_zillow", some (Val.s "3"))]) ∧
    ("Has garage" ∉ homeTypes →
      _parse_facts homeTypes now ["Has garage"] =
        .ok [("extras", some (Val.sList ["Has garage"]))]) := by
  refine ⟨fun r => ⟨fun ⟨hc, hmin⟩ => ?_, fun hr => ?_⟩, fun h => ?_, fun h => ?_,
    fun h => ?_⟩
  · rcases lt_trichotomy (ruleIdx r) (ruleIdx (classifyFact homeTypes fact))
      with hlt | heq | hgt
    · exact absurd hc (by simp [(classifyFact_spec homeTypes fact).2 r hlt])
    · exact ruleIdx_inj _ _ heq
    · exact absurd (classifyFact_spec homeTypes fact).1
        (by simp [hmin _ hgt])
  · subst hr
    exact classifyFact_spec homeTypes fact
  · have c0 : ¬ (homeTypes.contains "Built in 1925" = true) := by
      simpa using h
    have hcl : classifyFact homeTypes "Built in 1925" = .builtIn := by
      unfold classifyFact
      rw [if_neg c0, if_pos (by decide)]
    simp only [_parse_facts, parseFactsAux, parseFactStep, hcl]
    rfl
  · have c0 : ¬ (homeTypes.contains "3 days on Zillow" = true) := by
      simpa using h
    have hcl : classifyFact homeTypes "3 days on Zillow" = .daysOnZillow := by
      unfold classifyFact
      rw [if_neg c0, if_neg (by decide), if_pos (by decide)]
    simp only [_parse_facts, parseFactsAux, parseFactStep, hcl]
    rfl
  · have c0 : ¬ (homeTypes.contains "Has garage" = true) := by
      simpa using h
    have hcl : classifyFact homeTypes "Has garage" = .extras := by
      unfold classifyFact
      rw [if_neg c0, if_neg (by decide), if_neg (by decide), if_pos (by decide)]
    simp only [_parse_facts, parseFactsAux, parseFactStep, hcl]
    rfl

/-- Witness for C4 with the empty home-type list and `now = 0`: the three
example classifications, and the first-match characterization applied at the
fact `Built in 1925` and the rule the chain selects for it. -/
theorem fact_classification_total_ordered_witness :
    (_parse_facts [] 0 ["Built in 1925"] = .ok [("year", some (Val.s "1925"))]) ∧
    (_parse_facts [] 0 ["3 days on Zillow"] =
      .ok [("days_on_zillow", some (Val.s "3"))]) ∧
    (_parse_facts [] 0 ["Has garage"] =
      .ok [("extras", some (Val.sList ["Has garage"]))]) ∧
    (FactRule.builtIn = classifyFact [] "Built in 1925") :=
  ⟨(fact_classification_total_ordered [] "Built in 1925" 0).2.1
      (by simp),
   (fact_classification_total_ordered [] "3 days on Zillow" 0).2.2.1
      (by simp),
   (fact_classification_total_ordered [] "Has garage" 0).2.2.2
      (by simp),
   ((fact_classification_total_ordered [] "Built in 1925" 0).1
      FactRule.builtIn).mp
     ⟨by decide, by
        intro r' hlt
        cases r' with
        | homeType => decide
        | builtIn => exact absurd hlt (by decide)
        | daysOnZillow => exact absurd hlt (by decide)
        | extras => exact absurd hlt (by decide)
        | posted => exact absurd hlt (by decide)
        | generic => exact absurd hlt (by decide)⟩⟩

/-! ### Claims C7 and C8 — geolocation -/

theorem location_data_of_primary (soup : Soup) (comment : String)
    (la lo : Rat) (hm : soup.markerComment = some (some comment))
    (hp : tryPrimary comment = some (la, lo))
    (hla : ¬ la = 0) (hlo : ¬ lo = 0) :
    _get_location_data soup =
      .ok ⟨some (Coord.dec la), some (Coord.dec lo), addrOf soup⟩ := by
  unfold _get_location_data
  rw [hm]
  dsimp only
  rw [hp]
  dsimp only [Bind.bind, Except.bind, coordFalsy]
  rw [if_neg (by simpa using hla), if_neg (by simpa using hlo)]

theorem location_data_of_primary_fail (soup : Soup) (comment : String)
    (e : MapElem) (la lo : String) (hm : soup.markerComment = some (some comment))
    (hp : tryPrimary comment = none) (he : soup.mapElem = some e)
    (hla : e.dataLatitude = some la) (hlo : e.dataLongitude = some lo) :
    _get_location_data soup =
      .ok ⟨some (Coord.str la), some (Coord.str lo), addrOf soup⟩ := by
  unfold _get_location_data
  rw [hm]
  dsimp only
  rw [hp]
  dsimp only [Bind.bind, Except.bind, coordFalsy]
  rw [if_pos rfl, he]
  dsimp only
  rw [hla]
  dsimp only
  rw [hlo]
  rfl

/-- C7: for a marker-comment payload whose second-to-last comma-separated
element is `40123456` and whose last element is `-74654321`, the extracted
latitude is exactly `40.123456` and the longitude exactly `-74.654321`, each
the exact division of the micro-degree integer by `1,000,000` with no binary
floating-point rounding (coordinates are exact rationals in the embedding,
as `Decimal` division by `10^6` is exact here). -/
theorem geolocation_decimal_exact (soup : Soup) (comment : String)
    (hm : soup.markerComment = some (some comment))
    (h2 : ((pySplitChar ',' (pyStripChar ']'
        (pyStripChar '[' comment.toList))).reverse.drop 1).head? =
      some ("40123456".toList))
    (h1 : (pySplitChar ',' (pyStripChar ']'
        (pyStripChar '[' comment.toList))).reverse.head? =
      some ("-74654321".toList)) :
    _get_location_data soup =
      .ok ⟨some (Coord.dec (40.123456 : Rat)),
           some (Coord.dec (-74.654321 : Rat)), addrOf soup⟩ ∧
    (40.123456 : Rat) = (40123456 : Rat) / 1000000 ∧
    (-74.654321 : Rat) = (-74654321 : Rat) / 1000000 := by
  have e2 : decOfString (String.mk "40123456".toList) =
      some ((40123456 : Nat) : Rat) := rfl
  have e1 : decOfString (String.mk (("-74654321".toList).filter
      (fun a => a ≠ '\\'))) = some (-((74654321 : Nat) : Rat)) := rfl
  have hq2 : ((40123456 : Nat) : Rat) / 1000000 = (40.123456 : Rat) := by
    norm_num
  have hq1 : (-((74654321 : Nat) : Rat)) / 1000000 = (-74.654321 : Rat) := by
    norm_num
  have hp : tryPrimary comment = some ((40.123456 : Rat), (-74.654321 : Rat)) := by
    unfold tryPrimary
    dsimp only
    rw [h2]
    dsimp only [Bind.bind, Option.bind]
    rw [e2]
    dsimp only [Option.bind]
    rw [h1]
    dsimp only [Option.bind]
    rw [e1]
    dsimp only [Option.bind]
    rw [hq2, hq1]
    rfl
  refine ⟨?_, hq2.symm, hq1.symm⟩
  exact location_data_of_primary soup comment _ _ hm hp
    (by norm_num) (by norm_num)

/-- Witness for C7 on the concrete comment `[40123456,-74654321]`. -/
theorem geolocation_decimal_exact_witness :
    _get_location_data coordSoup =
      .ok ⟨some (Coord.dec (40.123456 : Rat)),
           some (Coord.dec (-74.654321 : Rat)), addrOf coordSoup⟩ ∧
    (40.123456 : Rat) = (40123456 : Rat) / 1000000 ∧
    (-74.654321 : Rat) = (-74654321 : Rat) / 1000000 :=
  geolocation_decimal_exact coordSoup "[40123456,-74654321]" rfl rfl rfl

/-- C8 counterexample: a document whose marker-data region is present but
holds no embedded comment node.  The primary geolocation path then raises an
`AttributeError` (`comments.string` on `None`, outside the `try` block), and
this error propagates out of the extractor instead of both coordinates
falling back to null as the claim states. -/
theorem geolocation_fallback_counterexample :
    noCommentSoup.markerComment = some none ∧
    _get_location_data noCommentSoup = .error Err.attrErr ∧
    Except.error Err.attrErr ≠
      (.ok ⟨none, none, addrOf noCommentSoup⟩ : Except Err Location) :=
  ⟨rfl, rfl, by simp⟩

/-- C8 (amended): if the marker-data region is present *with* an embedded
comment and the conversion inside the `try` block fails in any way, both
coordinates fall back to null and the secondary data-attribute path is then
consulted; but when the region is present without a comment node, an
attribute error propagates out of the extractor (see the counterexample). -/
theorem geolocation_fallback_amended (soup : Soup) (comment : String)
    (e : MapElem) (la lo : String)
    (hm : soup.markerComment = some (some comment))
    (hp : tryPrimary comment = none) (he : soup.mapElem = some e)
    (hla : e.dataLatitude = some la) (hlo : e.dataLongitude = some lo) :
    _get_location_data soup =
      .ok ⟨some (Coord.str la), some (Coord.str lo), addrOf soup⟩ :=
  location_data_of_primary_fail soup comment e la lo hm hp he hla hlo

/-- Witness for the amended C8: an unconvertible comment plus a fallback
element carrying both data attributes. -/
theorem geolocation_fallback_amended_witness :
    _get_location_data badCommentSoup =
      .ok ⟨some (Coord.str "40.0"), some (Coord.str "-74.0"),
           addrOf badCommentSoup⟩ :=
  geolocation_fallback_amended badCommentSoup "x"
    ⟨some "40.0", some "-74.0", none⟩ "40.0" "-74.0" rfl rfl rfl rfl rfl

/-! ### Helper lemmas about the fetch layer -/

theorem get_raw_html_ok (env : Env) (url : String) (t : Nat) (l : List String)
    (h200 : (env.getResp url).status = 200)
    (hred : (env.getResp url).url ≠ ZILLOW_HOMES_URL) :
    get_raw_html env url t l = (.ok (env.getResp url).content, l ++ [url]) := by
  unfold get_raw_html logUrl
  dsimp only [Bind.bind, mbind]
  rw [if_neg (by simp [h200]), if_neg hred]
  rfl

theorem ajax_url_some (soup : Soup) (label u : String)
    (h : soup.ajaxUrls label = some u) :
    _get_ajax_url soup label = .ok ("http://www.zillow.com" ++ u) := by
  unfold _get_ajax_url
  rw [h]

theorem ajax_url_none (soup : Soup) (label : String)
    (h : soup.ajaxUrls label = none) :
    _get_ajax_url soup label = .error Err.nullResult := by
  unfold _get_ajax_url
  rw [h]

theorem table_body_ok (env : Env) (u : String) (t : Nat) (l : List String)
    (doc : AjaxDoc) (tbl : Table)
    (h200 : (env.getResp u).status = 200)
    (hred : (env.getResp u).url ≠ ZILLOW_HOMES_URL)
    (henv : (env.getResp u).content.envelope = some doc)
    (htab : doc.table = some tbl) :
    _get_table_body env u t l = (.ok tbl.tbody, l ++ [u]) := by
  unfold _get_table_body
  dsimp only [Bind.bind, mbind]
  rw [get_raw_html_ok env u t l h200 hred]
  dsimp only
  rw [henv]
  dsimp only
  rw [htab]
  rfl

theorem table_body_no_table (env : Env) (u : String) (t : Nat) (l : List String)
    (doc : AjaxDoc)
    (h200 : (env.getResp u).status = 200)
    (hred : (env.getResp u).url ≠ ZILLOW_HOMES_URL)
    (henv : (env.getResp u).content.envelope = some doc)
    (htab : doc.table = none) :
    _get_table_body env u t l =
      (.error (Err.valueErr "There is no table history"), l ++ [u]) := by
  unfold _get_table_body
  dsimp only [Bind.bind, mbind]
  rw [get_raw_html_ok env u t l h200 hred]
  dsimp only
  rw [henv]
  dsimp only
  rw [htab]
  rfl

theorem price_history_ok (env : Env) (u : String) (t : Nat) (l : List String)
    (doc : AjaxDoc) (tbl : Table) (rows : List (List Cell))
    (prs : List (String × String × Option String))
    (h200 : (env.getResp u).status = 200)
    (hred : (env.getResp u).url ≠ ZILLOW_HOMES_URL)
    (henv : (env.getResp u).content.envelope = some doc)
    (htab : doc.table = some tbl) (htb : tbl.tbody = some rows)
    (hrows : rows.mapM priceRowExtract = .ok prs) :
    _get_price_history env u t l = (.ok prs, l ++ [u]) := by
  unfold _get_price_history
  dsimp only [Bind.bind, mbind]
  rw [table_body_ok env u t l doc tbl h200 hred henv htab]
  dsimp only
  rw [htb]
  dsimp only [liftE]
  rw [hrows]

theorem price_history_no_table (env : Env) (u : String) (t : Nat)
    (l : List String) (doc : AjaxDoc)
    (h200 : (env.getResp u).status = 200)
    (hred : (env.getResp u).url ≠ ZILLOW_HOMES_URL)
    (henv : (env.getResp u).content.envelope = some doc)
    (htab : doc.table = none) :
    _get_price_history env u t l =
      (.error (Err.valueErr "There is no table history"), l ++ [u]) := by
  unfold _get_price_history
  dsimp only [Bind.bind, mbind]
  rw [table_body_no_table env u t l doc h200 hred henv htab]

theorem tax_history_no_table_run (env : Env) (u : String) (t : Nat)
    (l : List String) (doc : AjaxDoc)
    (h200 : (env.getResp u).status = 200)
    (hred : (env.getResp u).url ≠ ZILLOW_HOMES_URL)
    (henv : (env.getResp u).content.envelope = some doc)
    (htab : doc.table = none) :
    _get_tax_history env u t l = (.ok [], l ++ [u]) := by
  unfold _get_tax_history
  dsimp only [Bind.bind, mbind, mtryCatch]
  rw [table_body_no_table env u t l doc h200 hred henv htab]
  rfl

/-! ### Claims C5 and C6 — history-fetch failure policy -/

/-- C5 counterexample: a listing page advertising a price-history descriptor
whose fetched fragment contains no table.  The resulting `ValueError` is not
caught by `populate_price_and_tax_histories` (its handlers catch only
`NullResultException`), so this history-fetch failure propagates out of
`scrape_url` — the second logged URL shows the history fetch was issued. -/
theorem history_failure_counterexample :
    runM (scrape_url emptyRe priceNoTableEnv [] 0 (some demoUrl) none 10 true) =
      (.error (Err.valueErr "There is no table history"),
       [demoUrl, "http://www.zillow.com/Ajax1"]) := rfl

/-- C5 (amended): a history-fetch failure of the descriptor-lookup stage
(`NullResultException`) is caught for both history types and leaves the
results dict — hence every other key — unchanged; but a price-history fetch
whose fragment has no table raises a `ValueError` that propagates out of the
orchestration (the tax-history no-table case is instead absorbed inside
`_get_tax_history`, see the C6 theorem). -/
theorem history_failure_handling (env : Env) (t : Nat) (soup : Soup)
    (results : Dict) (l : List String) :
    (soup.ajaxUrls "z-hdp-price-history" = none →
      soup.ajaxUrls "z-expando-table" = none →
      populate_price_and_tax_histories env t soup results l = (.ok results, l)) ∧
    (∀ pu pdoc, soup.ajaxUrls "z-hdp-price-history" = some pu →
      (env.getResp ("http://www.zillow.com" ++ pu)).status = 200 →
      (env.getResp ("http://www.zillow.com" ++ pu)).url ≠ ZILLOW_HOMES_URL →
      (env.getResp ("http://www.zillow.com" ++ pu)).content.envelope = some pdoc →
      pdoc.table = none →
      populate_price_and_tax_histories env t soup results l =
        (.error (Err.valueErr "There is no table history"),
         l ++ ["http://www.zillow.com" ++ pu])) := by
  constructor
  · intro hp ht
    unfold populate_price_and_tax_histories populate_price_stage populate_tax_stage
    dsimp only [Bind.bind, mbind, mtryCatch, liftE]
    rw [ajax_url_none soup _ hp, ajax_url_none soup _ ht]
    rfl
  · intro pu pdoc hpu h200 hred henv htab
    unfold populate_price_and_tax_histories populate_price_stage populate_tax_stage
    dsimp only [Bind.bind, mbind, mtryCatch, liftE]
    rw [ajax_url_some soup _ pu hpu]
    dsimp only
    rw [price_history_no_table env _ t l pdoc h200 hred henv htab]
    rfl

/-- Witness for the amended C5: (a) no descriptor found for either history on
the demo page — the dict is returned unchanged and nothing is fetched; (b) a
price-history fragment with no table — the `ValueError` escapes. -/
theorem history_failure_handling_witness :
    (populate_price_and_tax_histories demoEnv 10 demoSoup [("x", none)] [] =
      (.ok [("x", none)], [])) ∧
    (populate_price_and_tax_histories priceNoTableEnv 10 priceOnlySoup
        [("x", none)] [] =
      (.error (Err.valueErr "There is no table history"),
       ["http://www.zillow.com/Ajax1"])) :=
  ⟨(history_failure_handling demoEnv 10 demoSoup [("x", none)] []).1 rfl rfl,
   (history_failure_handling priceNoTableEnv 10 priceOnlySoup
      [("x", none)] []).2 "/Ajax1" ⟨none⟩ rfl rfl (by decide) rfl rfl⟩

/-- C6: when the price-history fetch succeeds and the tax-history fragment
holds no table, the `ValueError` is converted by `_get_tax_history` into an
empty row sequence: the returned dict holds `tax_history = []`, the extracted
price-history rows, and every other key unchanged. -/
theorem tax_no_table_isolation (env : Env) (t : Nat) (soup : Soup)
    (results : Dict) (l : List String) (pu tu : String) (pdoc tdoc : AjaxDoc)
    (ptab : Table) (rows : List (List Cell))
    (prs : List (String × String × Option String))
    (hpu : soup.ajaxUrls "z-hdp-price-history" = some pu)
    (hp200 : (env.getResp ("http://www.zillow.com" ++ pu)).status = 200)
    (hpred : (env.getResp ("http://www.zillow.com" ++ pu)).url ≠ ZILLOW_HOMES_URL)
    (hpenv : (env.getResp ("http://www.zillow.com" ++ pu)).content.envelope = some pdoc)
    (hptab : pdoc.table = some ptab) (hptb : ptab.tbody = some rows)
    (hrows : rows.mapM priceRowExtract = .ok prs)
    (htu : soup.ajaxUrls "z-expando-table" = some tu)
    (ht200 : (env.getResp ("http://www.zillow.com" ++ tu)).status = 200)
    (htred : (env.getResp ("http://www.zillow.com" ++ tu)).url ≠ ZILLOW_HOMES_URL)
    (htenv : (env.getResp ("http://www.zillow.com" ++ tu)).content.envelope = some tdoc)
    (httab : tdoc.table = none) :
    ∃ R : Dict,
      populate_price_and_tax_histories env t soup results l =
        (.ok R, l ++ ["http://www.zillow.com" ++ pu,
                      "http://www.zillow.com" ++ tu]) ∧
      dget R "tax_history" = some (some (Val.taxRows [])) ∧
      dget R "price_history" = some (some (Val.priceRows prs)) ∧
      ∀ k, k ≠ "price_history" → k ≠ "tax_history" →
        dget R k = dget results k := by
  refine ⟨dset (dset results "price_history" (some (Val.priceRows prs)))
    "tax_history" (some (Val.taxRows [])), ?_, ?_, ?_, ?_⟩
  · unfold populate_price_and_tax_histories populate_price_stage populate_tax_stage
    dsimp only [Bind.bind, mbind, mtryCatch, liftE]
    rw [ajax_url_some soup _ pu hpu]
    dsimp only
    rw [price_history_ok env _ t l pdoc ptab rows prs hp200 hpred hpenv hptab
      hptb hrows]
    dsimp only [mpure]
    rw [ajax_url_some soup _ tu htu]
    dsimp only [mpure]
    rw [tax_history_no_table_run env _ t (l ++ ["http://www.zillow.com" ++ pu])
      tdoc ht200 htred htenv httab]
    dsimp only [mpure]
    rw [List.append_assoc]
    rfl
  · rw [dget_dset]
    simp
  · rw [dget_dset, if_neg (by decide), dget_dset]
    simp
  · intro k hk1 hk2
    rw [dget_dset, if_neg hk2, dget_dset, if_neg hk1]

/-- Witness for C6: concrete client where the price fetch yields one row and
the tax fragment has no table. -/
theorem tax_no_table_isolation_witness :
    ∃ R : Dict,
      populate_price_and_tax_histories taxNoTableEnv 10 bothHistSoup
          [("x", none)] [] =
        (.ok R, ["http://www.zillow.com/Ajax1", "http://www.zillow.com/Ajax2"]) ∧
      dget R "tax_history" = some (some (Val.taxRows [])) ∧
      dget R "price_history" =
        some (some (Val.priceRows [("04/01/2015", "Sold", some "$100,000")])) ∧
      ∀ k, k ≠ "price_history" → k ≠ "tax_history" →
        dget R k = dget [("x", none)] k :=
  tax_no_table_isolation taxNoTableEnv 10 bothHistSoup [("x", none)] []
    "/Ajax1" "/Ajax2" ⟨some ⟨some [demoPriceRow]⟩⟩ ⟨none⟩ ⟨some [demoPriceRow]⟩
    [demoPriceRow] [("04/01/2015", "Sold", some "$100,000")]
    rfl rfl (by decide) rfl rfl rfl rfl rfl rfl (by decide) rfl rfl

/-! ### Shape lemmas for the orchestrator -/

theorem price_stage_shape (env : Env) (t : Nat) (soup : Soup) (results : Dict)
    (l l1 : List String) (r1 : Dict)
    (h : populate_price_stage env t soup results l = (.ok r1, l1)) :
    r1 = results ∨
      ∃ ph, r1 = dset results "price_history" (some (Val.priceRows ph)) := by
  unfold populate_price_stage at h
  dsimp only [Bind.bind, mbind, mtryCatch, liftE] at h
  rcases hpa : _get_ajax_url soup "z-hdp-price-history" with e | a
  · rw [hpa] at h
    dsimp only at h
    cases e <;> dsimp only [mpure, mthrow] at h
    case nullResult =>
      injection h with h1 h2
      exact Or.inl (Except.ok.inj h1).symm
    all_goals (injection h with h1 h2; injection h1)
  · rw [hpa] at h
    dsimp only at h
    rcases hph : _get_price_history env a t l with ⟨e2 | ph, l2⟩
    · rw [hph] at h
      dsimp only at h
      cases e2 <;> dsimp only [mpure, mthrow] at h
      case nullResult =>
        injection h with h1 h2
        exact Or.inl (Except.ok.inj h1).symm
      all_goals (injection h with h1 h2; injection h1)
    · rw [hph] at h
      dsimp only [mpure] at h
      injection h with h1 h2
      exact Or.inr ⟨ph, (Except.ok.inj h1).symm⟩

theorem tax_stage_shape (env : Env) (t : Nat) (soup : Soup) (results : Dict)
    (l l1 : List String) (r1 : Dict)
    (h : populate_tax_stage env t soup results l = (.ok r1, l1)) :
    r1 = results ∨
      ∃ th, r1 = dset results "tax_history" (some (Val.taxRows th)) := by
  unfold populate_tax_stage at h
  dsimp only [Bind.bind, mbind, mtryCatch, liftE] at h
  rcases hpa : _get_ajax_url soup "z-expando-table" with e | a
  · rw [hpa] at h
    dsimp only at h
    cases e <;> dsimp only [mpure, mthrow] at h
    case nullResult =>
      injection h with h1 h2
      exact Or.inl (Except.ok.inj h1).symm
    all_goals (injection h with h1 h2; injection h1)
  · rw [hpa] at h
    dsimp only at h
    rcases hph : _get_tax_history env a t l with ⟨e2 | th, l2⟩
    · rw [hph] at h
      dsimp only at h
      cases e2 <;> dsimp only [mpure, mthrow] at h
      case nullResult =>
        injection h with h1 h2
        exact Or.inl (Except.ok.inj h1).symm
      all_goals (injection h with h1 h2; injection h1)
    · rw [hph] at h
      dsimp only [mpure] at h
      injection h with h1 h2
      exact Or.inr ⟨th, (Except.ok.inj h1).symm⟩

theorem populate_ok_shape (env : Env) (t : Nat) (soup : Soup) (results : Dict)
    (l l' : List String) (r' : Dict)
    (h : populate_price_and_tax_histories env t soup results l = (.ok r', l')) :
    ∃ r1 : Dict,
      (r1 = results ∨
        ∃ ph, r1 = dset results "price_history" (some (Val.priceRows ph))) ∧
      (r' = r1 ∨
        ∃ th, r' = dset r1 "tax_history" (some (Val.taxRows th))) := by
  unfold populate_price_and_tax_histories at h
  dsimp only [Bind.bind, mbind] at h
  rcases hs1 : populate_price_stage env t soup results l with ⟨e1 | r1, l1⟩
  · rw [hs1] at h
    dsimp only at h
    injection h with h1 h2
    injection h1
  · rw [hs1] at h
    dsimp only at h
    exact ⟨r1, price_stage_shape env t soup results l l1 r1 hs1,
      tax_stage_shape env t soup r1 l1 l' r' h⟩

theorem saleInfoRows_dget_isSome (re : ReEngine) (rows : List String) :
    ∀ (d d' : Dict), saleInfoRows re rows d = .ok d' →
      ∀ k, (dget d k).isSome → (dget d' k).isSome := by
  induction rows with
  | nil =>
    intro d d' h k hk
    injection h with h1
    exact h1 ▸ hk
  | cons row rest ih =>
    intro d d' h k hk
    unfold saleInfoRows at h
    rcases hfa : re.findall2 pricing_re row with _ | ⟨⟨lbl, v⟩, ps⟩
    · rw [hfa] at h
      rcases hst : re.findall1 status_re row with _ | ⟨st, ss⟩
      · rw [hst] at h
        by_cases hts : re.testSearch money_search_re row = true
        · rw [if_pos hts] at h
          rcases hcap : re.findall1 money_capture_re row with _ | ⟨p, ps'⟩
          · rw [hcap] at h
            exact absurd h (by simp)
          · rw [hcap] at h
            exact ih _ _ h k (dget_dset_isSome _ _ _ _ hk)
        · rw [if_neg hts] at h
          exact ih _ _ h k hk
      · rw [hst] at h
        exact ih _ _ h k (dget_dset_isSome _ _ _ _ hk)
    · rw [hfa] at h
      exact ih _ _ h k (dget_dset_isSome _ _ _ _ hk)

theorem saleInfoRows_nodup (re : ReEngine) (rows : List String) :
    ∀ (d d' : Dict), saleInfoRows re rows d = .ok d' →
      (dkeys d).Nodup → (dkeys d').Nodup := by
  induction rows with
  | nil =>
    intro d d' h hk
    injection h with h1
    exact h1 ▸ hk
  | cons row rest ih =>
    intro d d' h hk
    unfold saleInfoRows at h
    rcases hfa : re.findall2 pricing_re row with _ | ⟨⟨lbl, v⟩, ps⟩
    · rw [hfa] at h
      rcases hst : re.findall1 status_re row with _ | ⟨st, ss⟩
      · rw [hst] at h
        by_cases hts : re.testSearch money_search_re row = true
        · rw [if_pos hts] at h
          rcases hcap : re.findall1 money_capture_re row with _ | ⟨p, ps'⟩
          · rw [hcap] at h
            exact absurd h (by simp)
          · rw [hcap] at h
            exact ih _ _ h (dkeys_nodup_dset _ _ _ hk)
        · rw [if_neg hts] at h
          exact ih _ _ h hk
      · rw [hst] at h
        exact ih _ _ h (dkeys_nodup_dset _ _ _ hk)
    · rw [hfa] at h
      exact ih _ _ h (dkeys_nodup_dset _ _ _ hk)

theorem saleInfoZest_dget_isSome (re : ReEngine) (values : List (List String))
    (titles : List (Nat × String)) :
    ∀ (d d' : Dict), saleInfoZest re values titles d = .ok d' →
      ∀ k, (dget d k).isSome → (dget d' k).isSome := by
  induction titles with
  | nil =>
    intro d d' h k hk
    injection h with h1
    exact h1 ▸ hk
  | cons it rest ih =>
    intro d d' h k hk
    rcases it with ⟨i, title⟩
    unfold saleInfoZest at h
    by_cases hr : listHasSub "rent".toList title.toList = true
    · rw [if_pos hr] at h
      rcases hv : values.get? i with _ | vtexts
      · rw [hv] at h
        exact absurd h (by simp)
      · rw [hv] at h
        rcases vtexts with _ | ⟨v0, vs⟩
        · exact absurd h (by simp)
        · dsimp only at h
          rcases hcap : re.findall1 money_capture_re v0 with _ | ⟨p, ps⟩
          · rw [hcap] at h
            exact absurd h (by simp)
          · rw [hcap] at h
            exact ih _ _ h k (dget_dset_isSome _ _ _ _ hk)
    · rw [if_neg hr] at h
      exact ih _ _ h k hk

theorem saleInfoZest_nodup (re : ReEngine) (values : List (List String))
    (titles : List (Nat × String)) :
    ∀ (d d' : Dict), saleInfoZest re values titles d = .ok d' →
      (dkeys d).Nodup → (dkeys d').Nodup := by
  induction titles with
  | nil =>
    intro d d' h hk
    injection h with h1
    exact h1 ▸ hk
  | cons it rest ih =>
    intro d d' h hk
    rcases it with ⟨i, title⟩
    unfold saleInfoZest at h
    by_cases hr : listHasSub "rent".toList title.toList = true
    · rw [if_pos hr] at h
      rcases hv : values.get? i with _ | vtexts
      · rw [hv] at h
        exact absurd h (by simp)
      · rw [hv] at h
        rcases vtexts with _ | ⟨v0, vs⟩
        · exact absurd h (by simp)
        · dsimp only at h
          rcases hcap : re.findall1 money_capture_re v0 with _ | ⟨p, ps⟩
          · rw [hcap] at h
            exact absurd h (by simp)
          · rw [hcap] at h
            exact ih _ _ h (dkeys_nodup_dset _ _ _ hk)
    · rw [if_neg hr] at h
      exact ih _ _ h hk

theorem sale_info_keys (re : ReEngine) (soup : Soup) (si : Dict)
    (h : _get_sale_info re soup = .ok si) :
    ((dget si "price").isSome ∧ (dget si "status").isSome ∧
     (dget si "zestimate").isSome ∧ (dget si "rent_zestimate").isSome) ∧
    (dkeys si).Nodup := by
  unfold _get_sale_info at h
  rcases hrows : soup.homeValueRows with _ | summary_rows
  · rw [hrows] at h
    exact absurd h (by simp)
  · rw [hrows] at h
    dsimp only [Bind.bind, Except.bind] at h
    rcases hs1 : saleInfoRows re summary_rows
        [("price", none), ("status", none), ("zestimate", none),
         ("rent_zestimate", none)] with e | d1
    · rw [hs1] at h
      exact absurd h (by simp)
    · rw [hs1] at h
      dsimp only at h
      have hinit : ∀ k, k ∈ ["price", "status", "zestimate", "rent_zestimate"] →
          (dget ([("price", none), ("status", none), ("zestimate", none),
            ("rent_zestimate", none)] : Dict) k).isSome := by
        intro k hk
        simp only [List.mem_cons, List.not_mem_nil, or_false] at hk
        rcases hk with h' | h' | h' | h' <;> subst h' <;> decide
      have hd1 : ∀ k, k ∈ ["price", "status", "zestimate", "rent_zestimate"] →
          (dget d1 k).isSome := fun k hk =>
        saleInfoRows_dget_isSome re summary_rows _ _ hs1 k (hinit k hk)
      have hsi : ∀ k, k ∈ ["price", "status", "zestimate", "rent_zestimate"] →
          (dget si k).isSome := fun k hk =>
        saleInfoZest_dget_isSome re soup.zestValues soup.zestTitles.enum _ _ h k
          (hd1 k hk)
      refine ⟨⟨hsi _ (by simp), hsi _ (by simp), hsi _ (by simp),
        hsi _ (by simp)⟩, ?_⟩
      exact saleInfoZest_nodup re soup.zestValues soup.zestTitles.enum _ _ h
        (saleInfoRows_nodup re summary_rows _ _ hs1 (by decide))

theorem get_raw_html_ok_inv (env : Env) (url : String) (t : Nat)
    (l l' : List String) (raw : RawHtml)
    (h : get_raw_html env url t l = (.ok raw, l')) :
    raw = (env.getResp url).content ∧ l' = l ++ [url] := by
  unfold get_raw_html logUrl at h
  dsimp only [Bind.bind, mbind] at h
  by_cases h1 : (env.getResp url).status ≠ 200
  · rw [if_pos h1] at h
    dsimp only [mthrow] at h
    injection h with ha _
    injection ha
  · rw [if_neg h1] at h
    by_cases h2 : (env.getResp url).url = ZILLOW_HOMES_URL
    · rw [if_pos h2] at h
      dsimp only [mthrow] at h
      injection h with ha _
      injection ha
    · rw [if_neg h2] at h
      dsimp only [mpure] at h
      injection h with ha hb
      exact ⟨(Except.ok.inj ha).symm, hb.symm⟩

theorem parse_property_dget (re : ReEngine) (t : String) (d : Dict)
    (rgx p k : String) :
    dget (parse_property re t d rgx p) k =
      if k = p then
        some (match re.findall1 rgx t with
          | [] => none
          | x :: _ => some (Val.s x))
      else dget d k := by
  unfold parse_property
  rcases re.findall1 rgx t with _ | ⟨x, xs⟩ <;> dsimp only <;> rw [dget_dset]

theorem summary_keys (re : ReEngine) (soup : Soup) (d : Dict)
    (h : _get_property_summary re soup = .ok d) :
    (dget d "bedrooms").isSome ∧ (dget d "bathrooms").isSome ∧
    (dget d "sqft").isSome ∧ (dget d "city").isSome ∧
    (dget d "state").isSome ∧ (dget d "zipcode").isSome := by
  unfold _get_property_summary at h
  rcases hps : soup.propSummary with _ | t
  · rw [hps] at h
    exact absurd h (by simp)
  · rw [hps] at h
    dsimp only at h
    injection h with h1
    subst h1
    simp only [summaryRegexes, List.foldl, parse_property_dget]
    refine ⟨?_, ?_, ?_, ?_, ?_, ?_⟩ <;>
      simp only [String.reduceEq, if_true, if_false, reduceIte] <;>
      (rcases re.findall1 _ t with _ | ⟨x, xs⟩ <;> simp)

theorem scrape_ok_shape (re : ReEngine) (env : Env) (homeTypes : List String)
    (now : Int) (url zpid : Option String) (t : Nat) (flag : Bool)
    (r : Dict) (log : List String)
    (h : runM (scrape_url re env homeTypes now url zpid t flag) = (.ok r, log)) :
    ∃ (u : String) (summary facts si : Dict) (desc : String) (loc : Location)
      (r1 : Dict),
      validate_scraper_input url zpid = .ok u ∧
      _get_property_summary re (env.getResp u).content.asPage = .ok summary ∧
      _parse_facts homeTypes now
        (_get_fact_list (env.getResp u).content.asPage) = .ok facts ∧
      _get_sale_info re (env.getResp u).content.asPage = .ok si ∧
      _get_description (env.getResp u).content.asPage = .ok desc ∧
      _get_location_data (env.getResp u).content.asPage = .ok loc ∧
      r1 = dset (dset (dset (dupdate (dupdate summary facts) si)
              "description" (some (Val.s desc)))
              "photos" (some (Val.sList
                (_get_photos (env.getResp u).content.asPage))))
              "location_data" (some (Val.loc loc)) ∧
      (r = r1 ∨
        ∃ r2, (r2 = r1 ∨
            ∃ ph, r2 = dset r1 "price_history" (some (Val.priceRows ph))) ∧
          (r = r2 ∨
            ∃ th, r = dset r2 "tax_history" (some (Val.taxRows th)))) := by
  unfold runM scrape_url at h
  dsimp only [Bind.bind, mbind, liftE] at h
  rcases hv : validate_scraper_input url zpid with e | u
  · rw [hv] at h
    dsimp only at h
    injection h with h1 _
    injection h1
  · rw [hv] at h
    dsimp only at h
    rcases hF : get_raw_html env u t [] with ⟨eF | raw, l1⟩
    · rw [hF] at h
      dsimp only at h
      injection h with h1 _
      injection h1
    · rw [hF] at h
      dsimp only at h
      obtain ⟨hraw, hl1⟩ := get_raw_html_ok_inv env u t [] l1 raw hF
      subst hraw
      rcases hs : _get_property_summary re (env.getResp u).content.asPage
        with es | summary
      · rw [hs] at h
        dsimp only at h
        injection h with h1 _
        injection h1
      · rw [hs] at h
        dsimp only at h
        rcases hf : _parse_facts homeTypes now
            (_get_fact_list (env.getResp u).content.asPage) with ef | facts
        · rw [hf] at h
          dsimp only at h
          injection h with h1 _
          injection h1
        · rw [hf] at h
          dsimp only at h
          rcases hsi : _get_sale_info re (env.getResp u).content.asPage
            with esi | si
          · rw [hsi] at h
            dsimp only at h
            injection h with h1 _
            injection h1
          · rw [hsi] at h
            dsimp only at h
            rcases hd : _get_description (env.getResp u).content.asPage
              with ed | desc
            · rw [hd] at h
              dsimp only at h
              injection h with h1 _
              injection h1
            · rw [hd] at h
              dsimp only at h
              rcases hl : _get_location_data (env.getResp u).content.asPage
                with el | loc
              · rw [hl] at h
                dsimp only at h
                injection h with h1 _
                injection h1
              · rw [hl] at h
                dsimp only at h
                cases flag with
                | false =>
                  rw [if_neg (by simp)] at h
                  dsimp only [mpure] at h
                  injection h with h1 h2
                  refine ⟨u, summary, facts, si, desc, loc, _, rfl, hs, hf,
                    hsi, hd, hl, rfl, Or.inl ?_⟩
                  exact (Except.ok.inj h1).symm
                | true =>
                  rw [if_pos rfl] at h
                  obtain ⟨r2, hsh1, hsh2⟩ :=
                    populate_ok_shape env t (env.getResp u).content.asPage _
                      l1 log r h
                  exact ⟨u, summary, facts, si, desc, loc, _, rfl, hs, hf,
                    hsi, hd, hl, rfl, Or.inr ⟨r2, hsh1, hsh2⟩⟩

theorem final_dget_eq (r r1 : Dict)
    (hdisj : r = r1 ∨
      ∃ r2, (r2 = r1 ∨
          ∃ ph, r2 = dset r1 "price_history" (some (Val.priceRows ph))) ∧
        (r = r2 ∨
          ∃ th, r = dset r2 "tax_history" (some (Val.taxRows th))))
    (k : String) (hk1 : k ≠ "price_history") (hk2 : k ≠ "tax_history") :
    dget r k = dget r1 k := by
  rcases hdisj with h' | ⟨r2, h2a, h2b⟩
  · rw [h']
  · have hr2 : dget r2 k = dget r1 k := by
      rcases h2a with h'' | ⟨ph, h''⟩
      · rw [h'']
      · rw [h'', dget_dset, if_neg hk1]
    rcases h2b with h'' | ⟨th, h''⟩
    · rw [h'', hr2]
    · rw [h'', dget_dset, if_neg hk2, hr2]

/-! ### Claim C1 — mandatory fields on a successful scrape -/

/-- C1: whenever `scrape_url` returns a record (in particular the document
carried both mandatory regions, or the scrape would have aborted), the
record's `description` key holds a non-null text and all six summary keys
(`bedrooms`, `bathrooms`, `sqft`, `city`, `state`, `zipcode`) are present,
each possibly null. -/
theorem scrape_success_mandatory_fields (re : ReEngine) (env : Env)
    (homeTypes : List String) (now : Int) (url zpid : Option String)
    (t : Nat) (flag : Bool) (r : Dict) (log : List String)
    (h : runM (scrape_url re env homeTypes now url zpid t flag) =
      (.ok r, log)) :
    (∃ text, dget r "description" = some (some (Val.s text))) ∧
    (dget r "bedrooms").isSome ∧ (dget r "bathrooms").isSome ∧
    (dget r "sqft").isSome ∧ (dget r "city").isSome ∧
    (dget r "state").isSome ∧ (dget r "zipcode").isSome := by
  obtain ⟨u, summary, facts, si, desc, loc, r1, hv, hs, hf, hsi, hd, hl, hr1,
    hdisj⟩ := scrape_ok_shape re env homeTypes now url zpid t flag r log h
  have hkey : ∀ k, k ≠ "price_history" → k ≠ "tax_history" →
      k ≠ "location_data" → k ≠ "photos" → k ≠ "description" →
      (dget summary k).isSome → (dget r k).isSome := by
    intro k h1 h2 h3 h4 h5 hk
    rw [final_dget_eq r r1 hdisj k h1 h2, hr1, dget_dset, if_neg h3,
      dget_dset, if_neg h4, dget_dset, if_neg h5]
    exact dget_dupdate_isSome si _ k (dget_dupdate_isSome facts _ k hk)
  obtain ⟨s1, s2, s3, s4, s5, s6⟩ := summary_keys re _ summary hs
  refine ⟨⟨desc, ?_⟩,
    hkey _ (by decide) (by decide) (by decide) (by decide) (by decide) s1,
    hkey _ (by decide) (by decide) (by decide) (by decide) (by decide) s2,
    hkey _ (by decide) (by decide) (by decide) (by decide) (by decide) s3,
    hkey _ (by decide) (by decide) (by decide) (by decide) (by decide) s4,
    hkey _ (by decide) (by decide) (by decide) (by decide) (by decide) s5,
    hkey _ (by decide) (by decide) (by decide) (by decide) (by decide) s6⟩
  rw [final_dget_eq r r1 hdisj "description" (by decide) (by decide), hr1,
    dget_dset, if_neg (by decide), dget_dset, if_neg (by decide), dget_dset,
    if_pos rfl]

/-- Witness for C1 on the demo page: the assembled record holds a non-null
description and the six summary keys. -/
theorem scrape_success_mandatory_fields_witness :
    (∃ text, dget demoRec "description" = some (some (Val.s text))) ∧
    (dget demoRec "bedrooms").isSome ∧ (dget demoRec "bathrooms").isSome ∧
    (dget demoRec "sqft").isSome ∧ (dget demoRec "city").isSome ∧
    (dget demoRec "state").isSome ∧ (dget demoRec "zipcode").isSome :=
  scrape_success_mandatory_fields emptyRe demoEnv [] 0 (some demoUrl) none
    10 false demoRec [demoUrl] rfl

/-! ### Claim C2 — mandatory-region failure -/

/-- C2 counterexample: a document missing the description region (and the
home-value region).  The scrape fails — but with an `AttributeError` raised
by `_get_sale_info` (`None.find_all`), not with `NullResultException`
(`CriticalFieldMissing`), because the sale-info extractor runs before the
description extractor. -/
theorem mandatory_region_failure_counterexample :
    noDescSoup.descriptionText = none ∧
    runM (scrape_url emptyRe noDescEnv [] 0 (some demoUrl) none 10 true) =
      (.error Err.attrErr, [demoUrl]) ∧
    Err.attrErr ≠ Err.nullResult :=
  ⟨rfl, rfl, by decide⟩

/-- C2 (amended): a document missing the property-summary region makes
`scrape_url` fail with `NullResultException` having fetched only the main
page (no history fetch).  A document with the summary region but missing the
description region does so too *provided* the intermediate fact parsing and
sale-info extraction succeed; otherwise their error (e.g. an
`AttributeError` when the home-value region is also absent) is what
propagates, see the counterexample. -/
theorem mandatory_region_failure (re : ReEngine) (env : Env)
    (homeTypes : List String) (now : Int) (url zpid : Option String)
    (t : Nat) (flag : Bool) (u : String)
    (hv : validate_scraper_input url zpid = .ok u)
    (h200 : (env.getResp u).status = 200)
    (hred : (env.getResp u).url ≠ ZILLOW_HOMES_URL) :
    ((env.getResp u).content.asPage.propSummary = none →
      runM (scrape_url re env homeTypes now url zpid t flag) =
        (.error Err.nullResult, [u])) ∧
    (∀ s facts si, (env.getResp u).content.asPage.propSummary = some s →
      (env.getResp u).content.asPage.descriptionText = none →
      _parse_facts homeTypes now
        (_get_fact_list (env.getResp u).content.asPage) = .ok facts →
      _get_sale_info re (env.getResp u).content.asPage = .ok si →
      runM (scrape_url re env homeTypes now url zpid t flag) =
        (.error Err.nullResult, [u])) := by
  constructor
  · intro hsum
    unfold runM scrape_url
    dsimp only [Bind.bind, mbind, liftE]
    rw [hv]
    dsimp only
    rw [get_raw_html_ok env u t [] h200 hred]
    dsimp only
    have hps : _get_property_summary re (env.getResp u).content.asPage =
        .error Err.nullResult := by
      unfold _get_property_summary
      rw [hsum]
    rw [hps]
    rfl
  · intro s facts si hsum hdesc hfacts hsi
    unfold runM scrape_url
    dsimp only [Bind.bind, mbind, liftE]
    rw [hv]
    dsimp only
    rw [get_raw_html_ok env u t [] h200 hred]
    dsimp only
    have hps : _get_property_summary re (env.getResp u).content.asPage =
        .ok (summaryRegexes.foldl
          (fun results p => parse_property re s results p.1 p.2) []) := by
      unfold _get_property_summary
      rw [hsum]
    rw [hps]
    dsimp only
    rw [hfacts]
    dsimp only
    rw [hsi]
    dsimp only
    have hd : _get_description (env.getResp u).content.asPage =
        .error Err.nullResult := by
      unfold _get_description
      rw [hdesc]
    rw [hd]
    rfl

/-- Witness for the amended C2: a page without the summary region, and a page
with summary and home-value regions but no description region. -/
theorem mandatory_region_failure_witness :
    (runM (scrape_url emptyRe noSummaryEnv [] 0 (some demoUrl) none 10 true) =
      (.error Err.nullResult, [demoUrl])) ∧
    (runM (scrape_url emptyRe noDescOnlyEnv [] 0 (some demoUrl) none 10 true) =
      (.error Err.nullResult, [demoUrl])) :=
  ⟨(mandatory_region_failure emptyRe noSummaryEnv [] 0 (some demoUrl) none
      10 true demoUrl rfl rfl (by decide)).1 rfl,
   (mandatory_region_failure emptyRe noDescOnlyEnv [] 0 (some demoUrl) none
      10 true demoUrl rfl rfl (by decide)).2 "3 beds 2 baths" []
      [("price", none), ("status", none), ("zestimate", none),
       ("rent_zestimate", none)] rfl rfl rfl rfl⟩

/-! ### Claim C10 — sale-info keys and merge order -/

/-- C10: on every successful scrape, the final record holds the four keys
`price`, `status`, `zestimate`, `rent_zestimate` (initialized unconditionally
by the sale-info extractor), and since the sale-info dict is merged after the
facts dict, the record's value at each of these keys is exactly the sale-info
extractor's value (possibly null) — overwriting any fact-derived value. -/
theorem scrape_sale_info_keys_and_override (re : ReEngine) (env : Env)
    (homeTypes : List String) (now : Int) (url zpid : Option String)
    (t : Nat) (flag : Bool) (r : Dict) (log : List String) (u : String)
    (hu : validate_scraper_input url zpid = .ok u)
    (h : runM (scrape_url re env homeTypes now url zpid t flag) =
      (.ok r, log)) :
    ∃ si, _get_sale_info re (env.getResp u).content.asPage = .ok si ∧
      ∀ k, k ∈ ["price", "status", "zestimate", "rent_zestimate"] →
        ∃ v, dget si k = some v ∧ dget r k = some v := by
  obtain ⟨u', summary, facts, si, desc, loc, r1, hv, hs, hf, hsi, hd, hl, hr1,
    hdisj⟩ := scrape_ok_shape re env homeTypes now url zpid t flag r log h
  have huu : u' = u := by
    rw [hu] at hv
    exact (Except.ok.inj hv).symm
  subst huu
  refine ⟨si, hsi, ?_⟩
  obtain ⟨⟨p1, p2, p3, p4⟩, hnd⟩ := sale_info_keys re _ si hsi
  have hval : ∀ k, k ≠ "price_history" → k ≠ "tax_history" →
      k ≠ "location_data" → k ≠ "photos" → k ≠ "description" →
      ∀ v, dget si k = some v → dget r k = some v := by
    intro k h1 h2 h3 h4 h5 v hkv
    rw [final_dget_eq r r1 hdisj k h1 h2, hr1, dget_dset, if_neg h3,
      dget_dset, if_neg h4, dget_dset, if_neg h5]
    exact dget_dupdate_of_nodup si _ k v hnd hkv
  intro k hk
  simp only [List.mem_cons, List.not_mem_nil, or_false] at hk
  rcases hk with rfl | rfl | rfl | rfl
  · obtain ⟨v, hv'⟩ := Option.isSome_iff_exists.mp p1
    exact ⟨v, hv', hval _ (by decide) (by decide) (by decide) (by decide)
      (by decide) v hv'⟩
  · obtain ⟨v, hv'⟩ := Option.isSome_iff_exists.mp p2
    exact ⟨v, hv', hval _ (by decide) (by decide) (by decide) (by decide)
      (by decide) v hv'⟩
  · obtain ⟨v, hv'⟩ := Option.isSome_iff_exists.mp p3
    exact ⟨v, hv', hval _ (by decide) (by decide) (by decide) (by decide)
      (by decide) v hv'⟩
  · obtain ⟨v, hv'⟩ := Option.isSome_iff_exists.mp p4
    exact ⟨v, hv', hval _ (by decide) (by decide) (by decide) (by decide)
      (by decide) v hv'⟩

/-- Witness for C10 on the demo page. -/
theorem scrape_sale_info_keys_and_override_witness :
    ∃ si, _get_sale_info emptyRe (demoEnv.getResp demoUrl).content.asPage =
        .ok si ∧
      ∀ k, k ∈ ["price", "status", "zestimate", "rent_zestimate"] →
        ∃ v, dget si k = some v ∧ dget demoRec k = some v :=
  scrape_sale_info_keys_and_override emptyRe demoEnv [] 0 (some demoUrl) none
    10 false demoRec [demoUrl] demoUrl rfl rfl

end Scrapezillow
